import Mathlib

/-!
Verification development for the MangaWorldDownloader repository.

The Python sources are shallowly embedded in Lean: Python strings are modelled
as lists of characters (`PyStr`), network I/O is modelled by explicit outcome
oracles passed to the embedded functions, and every network request, sleep and
log emitted by a function is recorded in an explicit trace so that claims about
"zero network calls", retry budgets and backoff delays can be stated and proved.
Randomized delays (`random.uniform`) are modelled over `ℚ` with the random draw
supplied by an oracle valued in `[0, 1]`.

Sources embedded below:
  - `src/config.py` (constants),
  - `src/general_utils.py` (`check_real_page`, `validate_chapter_range`),
  - `src/crawler_utils.py` (`fetch_chapter_data`, `get_chapter_urls_and_pages`,
    `generate_chapter_url`, `fetch_download_link`, `extract_download_links`),
  - `src/file_utils.py` (`create_download_directory`),
  - `src/download_utils.py` (`manage_running_tasks`, `download_page`,
    `attempt_download_page`, `download_chapter`, `run_in_parallel`).
-/

namespace MangaWorld

/-- Python strings are modelled as lists of characters. -/
abbrev PyStr := List Char

/-- Embed a Lean string literal as a `PyStr`. -/
def str (s : String) : PyStr := s.data

/-- The double-quote character (used inside embedded script text). -/
def quoteCh : Char := Char.ofNat 34

/-- `chStartsWith s p` models Python `s.startswith(p)`: `p` is a prefix of `s`. -/
def chStartsWith : PyStr → PyStr → Bool
  | _, [] => true
  | [], _ :: _ => false
  | c :: cs, p :: ps => c = p && chStartsWith cs ps

/-- `chContains s p` models Python `p in s` (substring containment). -/
def chContains : PyStr → PyStr → Bool
  | [], pat => chStartsWith [] pat
  | s@(_ :: cs), pat => chStartsWith s pat || chContains cs pat

/-- `chEndsWith s p` models Python `s.endswith(p)`. -/
def chEndsWith (s p : PyStr) : Bool := chStartsWith s.reverse p.reverse

/-- Drop the last `n` characters of a string (used to model removing a
matched suffix). -/
def chDropRight (s : PyStr) (n : Nat) : PyStr := (s.reverse.drop n).reverse

/-- `chSplitOnChar sep s` models Python `s.split(sep)` for a one-character
separator (the separators used in the sources, `"="` and `"/"`, are single
characters). -/
def chSplitOnChar (sep : Char) : PyStr → List PyStr
  | [] => [[]]
  | c :: cs =>
    match chSplitOnChar sep cs with
    | [] => if c = sep then [[], []] else [[c]]
    | h :: t => if c = sep then [] :: h :: t else (c :: h) :: t

/-- `chStrip s` models Python `s.strip()`: remove leading and trailing
whitespace. -/
def chStrip (s : PyStr) : PyStr :=
  ((s.dropWhile Char.isWhitespace).reverse.dropWhile Char.isWhitespace).reverse

/-- `chRstripSlash s` models Python `s.rstrip("/")`. -/
def chRstripSlash (s : PyStr) : PyStr :=
  (s.reverse.dropWhile (fun c => c = '/')).reverse

/-- Fuel-driven scan underlying `chReplace`; the fuel is the length of the
scanned string, so the recursion is structural and kernel-reducible. -/
def chReplaceFuel (pat rep : PyStr) : Nat → PyStr → PyStr
  | 0, l => l
  | _ + 1, [] => []
  | n + 1, l@(c :: cs) =>
    if pat ≠ [] ∧ chStartsWith l pat then rep ++ chReplaceFuel pat rep n (l.drop pat.length)
    else c :: chReplaceFuel pat rep n cs

/-- `chReplace s pat rep` models Python `s.replace(pat, rep)`: replace every
(left-to-right, non-overlapping) occurrence of `pat` by `rep`. -/
def chReplace (s pat rep : PyStr) : PyStr := chReplaceFuel pat rep s.length s

/-- Decimal rendering of a natural number (models Python `str(n)` and f-string
interpolation of a non-negative integer). -/
def natToCh (n : Nat) : PyStr := Nat.toDigits 10 n

/-- Decimal rendering of an integer. -/
def intToCh (i : Int) : PyStr :=
  if i < 0 then '-' :: natToCh i.natAbs else natToCh i.natAbs

/-- `pyInt s` models Python `int(s)` on strings of decimal digits (the only
inputs the callers produce; `int()` raises on anything else). -/
def pyInt (s : PyStr) : Nat :=
  s.foldl (fun a c => a * 10 + (c.toNat - 48)) 0

/-!  Constants from `src/config.py`. -/

/-- `DOWNLOAD_FOLDER = "Downloads"` -/
def DOWNLOAD_FOLDER : PyStr := str "Downloads"

/-- `MAX_RETRIES = 30` -/
def MAX_RETRIES : Nat := 30

/-- `WAIT_TIME_RETRIES = 10` -/
def WAIT_TIME_RETRIES : Nat := 10

/-- `HTTP_STATUS_OK = 200` -/
def HTTP_STATUS_OK : Nat := 200

/-- `MANGA_LIKE = {"Manga", "Oneshot", "Doujinshi", "Manhua"}` -/
def MANGA_LIKE : List PyStr := [str "Manga", str "Oneshot", str "Doujinshi", str "Manhua"]

/-- `PAGE_EXTENSIONS = [".jpg", ".png", ".gif", ".webp"]` -/
def PAGE_EXTENSIONS : List PyStr := [str ".jpg", str ".png", str ".gif", str ".webp"]

/-- `random.uniform(a, b)` with the random draw `r ∈ [0, 1]` supplied by an
oracle: the drawn value is `a + (b - a) * r`. -/
def uniform (a b r : ℚ) : ℚ := a + (b - a) * r

/-- Python exceptions that the embedded code can raise without catching them. -/
inductive PyError where
  | typeError
  | indexError
  | httpError (status : Nat)
deriving DecidableEq, Repr

/-!  `src/general_utils.py` -/

/-- Python truthiness of an optional integer CLI argument: `None` and `0` are
falsy, every other integer is truthy. -/
def truthyInt : Option Int → Bool
  | none => false
  | some n => n ≠ 0

/-- `validate_chapter_range(start_chapter, end_chapter, num_chapters)` from
`src/general_utils.py`.  `log_and_exit` (a logged warning followed by
`sys.exit(1)`) is modelled as `Except.error` carrying the logged message;
the returned `(start_index, end_index)` pair is the `Except.ok` value. -/
def validate_chapter_range (start_chapter end_chapter : Option Int)
    (num_chapters : Int) : Except PyStr (Int × Int) :=
  if truthyInt start_chapter ∧
      (start_chapter.getD 0 < 1 ∨ start_chapter.getD 0 > num_chapters) then
    Except.error (str "Start chapter must be between 1 and " ++ intToCh num_chapters ++ str ".")
  else if truthyInt start_chapter ∧ truthyInt end_chapter ∧
      start_chapter.getD 0 > end_chapter.getD 0 then
    Except.error (str "Start chapter cannot be greater than end episode.")
  else if truthyInt start_chapter ∧ truthyInt end_chapter ∧
      start_chapter.getD 0 > num_chapters then
    Except.error (str "End chapter must be between 1 and " ++ intToCh num_chapters ++ str ".")
  else
    Except.ok
      (if truthyInt start_chapter then start_chapter.getD 0 - 1 else 0,
       if truthyInt end_chapter then end_chapter.getD 0 else num_chapters)

/-- The parsed-document model: all that `check_real_page` inspects about a
parsed response is `response.body.script.text`; `bodyScriptText = none` models
a document with no `body` or no `script` element. -/
structure Doc where
  bodyScriptText : Option PyStr
deriving DecidableEq, Repr

/-- The literal prefix of the cookie pattern `document\.cookie="([^;]+)`. -/
def cookieLit : PyStr := str "document.cookie=" ++ [quoteCh]

/-- The literal prefix of the link pattern `location\.href="([^"]+)"`. -/
def linkLit : PyStr := str "location.href=" ++ [quoteCh]

/-- If `pre` is a prefix of `s`, return the remainder of `s`, else `none`. -/
def dropLit : PyStr → PyStr → Option PyStr
  | [], rest => some rest
  | _ :: _, [] => none
  | p :: ps, c :: cs => if p = c then dropLit ps cs else none

/-- `re.search(r'document\.cookie="([^;]+)', s)`: scan for the leftmost
position where the literal `document.cookie="` is followed by at least one
character other than `;`; the captured group is the maximal run of
non-`;` characters after the literal (nothing follows the group in the
pattern, so the greedy run is the group). -/
def searchCookieGroup : PyStr → Option PyStr
  | [] => none
  | c :: cs =>
    match dropLit cookieLit (c :: cs) with
    | some rest =>
      let g := rest.takeWhile (fun x => x ≠ ';')
      if g = [] then searchCookieGroup cs else some g
    | none => searchCookieGroup cs

/-- `re.search(r'location\.href="([^"]+)"', s)`: scan for the leftmost
position where the literal `location.href="` is followed by at least one
non-quote character and then a closing quote; the captured group is the
maximal run of non-quote characters (greedy matching cannot backtrack into a
shorter run here, because every shorter run is also followed by a non-quote
character). -/
def searchLinkGroup : PyStr → Option PyStr
  | [] => none
  | c :: cs =>
    match dropLit linkLit (c :: cs) with
    | some rest =>
      let g := rest.takeWhile (fun x => x ≠ quoteCh)
      if g = [] ∨ rest.dropWhile (fun x => x ≠ quoteCh) = [] then searchLinkGroup cs
      else some g
    | none => searchLinkGroup cs

/-- `check_real_page(initial_response, session, timeout)` from
`src/general_utils.py`.  The second network request is modelled by the oracle
`get`, which maps the requested URL and the single cookie pair to the response
`(status code, body text)`; `BeautifulSoup(text, "html.parser")` is modelled by
the oracle `parse`.  The returned trace lists every `session.get` performed,
with the URL and the cookie pair attached to it.  `response.raise_for_status()`
raises for status codes `≥ 400`; looking up `cookie[1]` when the captured
cookie group contains no `=` raises `IndexError`. -/
def check_real_page (doc : Doc) (get : PyStr → PyStr × PyStr → Nat × PyStr)
    (parse : PyStr → Doc) :
    Except PyError Doc × List (PyStr × (PyStr × PyStr)) :=
  match doc.bodyScriptText with
  | none => (Except.ok doc, [])
  | some t =>
    if chContains t (str "document.cookie") then
      match searchCookieGroup t with
      | none => (Except.ok doc, [])
      | some g =>
        let cookie := chSplitOnChar '=' (chStrip g)
        match searchLinkGroup t with
        | none => (Except.ok doc, [])
        | some link =>
          match cookie with
          | c0 :: c1 :: _ =>
            let resp := get link (c0, c1)
            if 400 ≤ resp.1 then (Except.error (PyError.httpError resp.1), [(link, (c0, c1))])
            else (Except.ok (parse resp.2), [(link, (c0, c1))])
          | _ => (Except.error PyError.indexError, [])
    else (Except.ok doc, [])

/-!  `src/crawler_utils.py` -/

/-- Trace of the observable effects of one retry loop: the `session.get`
invocations (with the URL argument, which is `none` when the code passes a
Python `None` as the URL), the delays slept, and the messages logged. -/
structure NetTrace where
  gets : List (Option PyStr)
  sleeps : List ℚ
  logs : List PyStr

/-- Outcome of one attempt of `fetch_chapter_data`'s `try` block, as decided by
the network/upstream oracle: either the validated document holds a
`select.page.custom-select` element (carrying its first option's text), or the
element is absent, or the attempt raised `aiohttp.ClientError` /
`asyncio.TimeoutError` (the two caught exception classes; the inner
`check_real_page` request can only raise these same classes here). -/
inductive ChapterFetchOutcome where
  | found (optionText : PyStr)
  | noPageItem
  | netError

/-- `option_text.rstrip("/").split("/")[-1]` from `fetch_chapter_data`. -/
def parseNumPages (t : PyStr) : PyStr :=
  (chSplitOnChar '/' (chRstripSlash t)).getLastD []

/-- The `for attempt in range(MAX_RETRIES)` loop of `fetch_chapter_data`,
over the list of remaining attempt indices.  A successful attempt returns
`(chapter_url, num_pages)` at once; a failed attempt sleeps
`random.uniform(1, WAIT_TIME_RETRIES - 1)` only when it is not the final
attempt; exhaustion logs an error and returns `(None, None)`. -/
def fetchChapterLoop (chapter_url : PyStr) (outcome : Nat → ChapterFetchOutcome)
    (rand : Nat → ℚ) : List Nat → NetTrace → (Option PyStr × Option PyStr) × NetTrace
  | [], tr =>
    ((none, none),
     {tr with logs := tr.logs ++ [str "Failed to fetch chapter data for " ++ chapter_url ++ str "."]})
  | a :: rest, tr =>
    let tr1 : NetTrace := {tr with gets := tr.gets ++ [some chapter_url]}
    match outcome a with
    | ChapterFetchOutcome.found t => ((some chapter_url, some (parseNumPages t)), tr1)
    | _ =>
      let tr2 : NetTrace :=
        if rest ≠ [] then
          {tr1 with sleeps := tr1.sleeps ++ [uniform 1 ((WAIT_TIME_RETRIES : ℚ) - 1) (rand a)]}
        else tr1
      fetchChapterLoop chapter_url outcome rand rest tr2

/-- `fetch_chapter_data(chapter_url, session)` from `src/crawler_utils.py`,
with the per-attempt upstream behaviour given by `outcome` and the random
draws (in `[0, 1]`) by `rand`. -/
def fetch_chapter_data (chapter_url : PyStr) (outcome : Nat → ChapterFetchOutcome)
    (rand : Nat → ℚ) : (Option PyStr × Option PyStr) × NetTrace :=
  fetchChapterLoop chapter_url outcome rand (List.range MAX_RETRIES) ⟨[], [], []⟩

/-- The `if result[0]:` filter of `get_chapter_urls_and_pages`: keep a
gathered `(chapter_url, num_pages)` tuple when `result[0]` is truthy (not
`None` and not the empty string); the `num_pages` component is a string
whenever the first component is truthy, so the kept entries collect as string
pairs (the `getD` default is unreachable on `fetch_chapter_data` results). -/
def keepProbed : Option PyStr × Option PyStr → Option (PyStr × PyStr)
  | (some u, p) => if u ≠ [] then some (u, p.getD []) else none
  | (none, _) => none

/-- `get_chapter_urls_and_pages(soup, session)` from `src/crawler_utils.py`.
The document's `a.chap[title]` anchors are given by their `href` values in DOM
order; the per-chapter probes (run concurrently, `asyncio.gather` preserving
input order) use the per-URL oracles `outcome`/`rand`; the gathered tuples are
filtered by `keepProbed` and both lists are returned reversed. -/
def get_chapter_urls_and_pages (hrefs : List PyStr)
    (outcome : PyStr → Nat → ChapterFetchOutcome) (rand : PyStr → Nat → ℚ) :
    List PyStr × List PyStr :=
  let kept := hrefs.filter fun h => chContains h (str "/read/")
  let results := kept.map fun u => (fetch_chapter_data u (outcome u) (rand u)).1
  let pairs := results.filterMap keepProbed
  ((pairs.map Prod.fst).reverse, (pairs.map Prod.snd).reverse)

/-- `generate_chapter_url(chapter_url, manga_type)` from
`src/crawler_utils.py`; the second component is the warning logged on the
unsupported branch. -/
def generate_chapter_url (chapter_url manga_type : PyStr) : Option PyStr × List PyStr :=
  if MANGA_LIKE.contains manga_type then (some (chapter_url ++ str "/1"), [])
  else if manga_type = str "Manhwa" then
    (some (chReplace chapter_url (str "?style=list") (str "/1?style=pages")), [])
  else (none, [str "Manga type '" ++ manga_type ++ str "' is not supported."])

/-- Outcome of one attempt of `fetch_download_link`'s `try` block: the
validated document holds `img.img-fluid` elements (carrying the `src` of the
last one), or none are present, or a caught `aiohttp.ClientError` /
`asyncio.TimeoutError` was raised, or an exception outside the caught classes
was raised (`uncaught`): in particular, when `url_to_fetch` is `None`,
`session.get(None)` raises `TypeError` from the URL constructor, which the
`except` clause does not catch. -/
inductive LinkFetchOutcome where
  | found (src : PyStr)
  | noImgItems
  | netError
  | uncaught

/-- The `for attempt in range(MAX_RETRIES)` loop of `fetch_download_link`.
A failed attempt sleeps `1 + random.uniform(0, WAIT_TIME_RETRIES)` only when
it is not the final attempt; exhaustion logs an error and returns `None`; an
uncaught exception propagates. -/
def fetchLinkLoop (chapter_url : PyStr) (url_to_fetch : Option PyStr)
    (outcome : Nat → LinkFetchOutcome) (rand : Nat → ℚ) :
    List Nat → NetTrace → Except PyError (Option PyStr) × NetTrace
  | [], tr =>
    (Except.ok none,
     {tr with logs := tr.logs ++ [str "Failed to fetch download link for " ++ chapter_url ++ str "."]})
  | a :: rest, tr =>
    let tr1 : NetTrace := {tr with gets := tr.gets ++ [url_to_fetch]}
    match outcome a with
    | LinkFetchOutcome.found src => (Except.ok (some src), tr1)
    | LinkFetchOutcome.uncaught => (Except.error PyError.typeError, tr1)
    | _ =>
      let tr2 : NetTrace :=
        if rest ≠ [] then
          {tr1 with sleeps := tr1.sleeps ++ [1 + uniform 0 (WAIT_TIME_RETRIES : ℚ) (rand a)]}
        else tr1
      fetchLinkLoop chapter_url url_to_fetch outcome rand rest tr2

/-- `fetch_download_link(chapter_url, session, manga_type)` from
`src/crawler_utils.py`.  With `manga_type=None` it returns `None` at once with
a logged warning.  Otherwise it computes `url_to_fetch` via
`generate_chapter_url` and — with no early return even when that yields
`None` — enters the retry loop, which passes `url_to_fetch` to `session.get`
on every attempt. -/
def fetch_download_link (chapter_url : PyStr) (manga_type : Option PyStr)
    (outcome : Nat → LinkFetchOutcome) (rand : Nat → ℚ) :
    Except PyError (Option PyStr) × NetTrace :=
  match manga_type with
  | none => (Except.ok none, ⟨[], [], [str "Manga type not found."]⟩)
  | some mt =>
    let gen := generate_chapter_url chapter_url mt
    fetchLinkLoop chapter_url gen.1 outcome rand (List.range MAX_RETRIES) ⟨[], [], gen.2⟩

/-- `re.sub(FIRST_PAGE_SUFFIX_REGEX, "", link)` with
`FIRST_PAGE_SUFFIX_REGEX = r"1\.(png|gif|jpg)$"`: the anchored pattern can
only match the final five characters, so the substitution drops a trailing
`1.png`, `1.gif` or `1.jpg` and leaves every other string unchanged. -/
def stripFirstPageSuffix (s : PyStr) : PyStr :=
  if chEndsWith s (str "1.png") || chEndsWith s (str "1.gif") || chEndsWith s (str "1.jpg") then
    chDropRight s 5
  else s

/-- Python list slicing `l[a:b]` (ends clamped, negative indices counted from
the end). -/
def pySlice {α : Type} (l : List α) (a b : Int) : List α :=
  let n : Int := l.length
  let a2 := if a < 0 then max 0 (n + a) else min a n
  let b2 := if b < 0 then max 0 (n + b) else min b n
  (l.take b2.toNat).drop a2.toNat

/-- The comprehension body of `extract_download_links`: `if download_link`
drops both `None` and the empty string (Python truthiness), and the kept links
get the first-page suffix stripped. -/
def keepLink : Option PyStr → Option PyStr
  | some s => if s ≠ [] then some (stripFirstPageSuffix s) else none
  | none => none

/-- `extract_download_links(chapter_urls, start_index, end_index, manga_type)`
from `src/crawler_utils.py`.  `resolve u` abstracts the value of
`fetch_download_link(u, session, manga_type=manga_type)` (its `Except.ok`
result; `asyncio.gather` preserves input order).  The comprehension windows
the gathered results with `download_links[start_index:end_index]` and filters
and cleans them with `keepLink`. -/
def extract_download_links (chapter_urls : List PyStr) (start_index end_index : Int)
    (resolve : PyStr → Option PyStr) : List PyStr :=
  let download_links := chapter_urls.map resolve
  (pySlice download_links start_index end_index).filterMap keepLink

/-!  `src/file_utils.py` and `src/download_utils.py` -/

/-- `create_download_directory(manga_name, indx_chapter)` from
`src/file_utils.py` (the `mkdir` side effects create the directory; the
returned download path is what the downloader uses). -/
def create_download_directory (manga_name : PyStr) (indx_chapter : Nat) : PyStr :=
  DOWNLOAD_FOLDER ++ str "/" ++ manga_name ++ str "/Chapter " ++ natToCh (indx_chapter + 1)

/-- State threaded through the page downloader: the files on disk (path ↦
bytes), the URLs requested via `SESSION.get` (in order), and the warnings and
errors logged. -/
structure DlState where
  fs : List (PyStr × List Nat)
  requests : List PyStr
  logs : List PyStr

/-- Overwrite (or create) the file at path `p` with content `c`. -/
def fsWrite (fs : List (PyStr × List Nat)) (p : PyStr) (c : List Nat) :
    List (PyStr × List Nat) :=
  fs.filter (fun e => e.1 ≠ p) ++ [(p, c)]

/-- Content of the file at path `p`, if present. -/
def fsRead (fs : List (PyStr × List Nat)) (p : PyStr) : Option (List Nat) :=
  (fs.find? (fun e => e.1 = p)).map Prod.snd

/-- Outcome of `SESSION.get(link, stream=True, ...)` for one URL: a streaming
response carrying its status code and the chunk sequence that
`iter_content(chunk_size=CHUNK_SIZE)` yields (chunks may be `None`, which
`download_page` skips), or a raised
`requests.exceptions.RequestException`. -/
inductive GetOutcome where
  | resp (status : Nat) (chunks : List (Option (List Nat)))
  | reqError

/-- The bytes written by the `for chunk in response.iter_content(...)` loop:
every non-`None` chunk, concatenated. -/
def joinChunks (chunks : List (Option (List Nat))) : List Nat :=
  (chunks.filterMap id).flatten

/-- `f"{base_download_link}{page}{extension}"` from `attempt_download_page`. -/
def pageLink (base : PyStr) (page : Nat) (ext : PyStr) : PyStr :=
  base ++ natToCh page ++ ext

/-- `Path(download_path) / f"{page}{extension}"` from `download_page`. -/
def pagePath (download_path : PyStr) (page : Nat) (ext : PyStr) : PyStr :=
  download_path ++ str "/" ++ natToCh page ++ ext

/-- `download_page(response, page, extension, download_path)` from
`src/download_utils.py`: stream the response body to
`download_path/page.extension` in `CHUNK_SIZE` chunks, skipping `None`
chunks. -/
def download_page (chunks : List (Option (List Nat))) (page : Nat)
    (extension download_path : PyStr) (st : DlState) : DlState :=
  {st with fs := fsWrite st.fs (pagePath download_path page extension) (joinChunks chunks)}

/-- The `for extension in PAGE_EXTENSIONS` loop of `attempt_download_page`:
issue a streaming GET per extension; on the first status `HTTP_STATUS_OK`
response, write the page and return `True`; on a `RequestException`, log and
try the next extension; on any other status, just try the next extension;
return `False` when every extension failed. -/
def attemptLoop (page : Nat) (base_download_link download_path : PyStr)
    (net : PyStr → GetOutcome) : List PyStr → DlState → Bool × DlState
  | [], st => (false, st)
  | extension :: rest, st =>
    let link := pageLink base_download_link page extension
    let st1 : DlState := {st with requests := st.requests ++ [link]}
    match net link with
    | GetOutcome.reqError =>
      attemptLoop page base_download_link download_path net rest
        {st1 with logs := st1.logs ++ [str "Failed attempt with " ++ link]}
    | GetOutcome.resp status chunks =>
      if status = HTTP_STATUS_OK then
        (true, download_page chunks page extension download_path st1)
      else attemptLoop page base_download_link download_path net rest st1

/-- `attempt_download_page(page, base_download_link, download_path)` from
`src/download_utils.py`. -/
def attempt_download_page (page : Nat) (base_download_link download_path : PyStr)
    (net : PyStr → GetOutcome) (st : DlState) : Bool × DlState :=
  attemptLoop page base_download_link download_path net PAGE_EXTENSIONS st

/-- The `for page in range(1, num_pages + 1)` loop of `download_chapter`:
per page, run `attempt_download_page` and log an error when it fails (the
progress updates go to the external display collaborator and are not part of
the downloader's own state). -/
def chapterLoop (base_download_link download_path : PyStr) (net : PyStr → GetOutcome) :
    List Nat → DlState → DlState
  | [], st => st
  | page :: rest, st =>
    let r := attempt_download_page page base_download_link download_path net st
    let st1 : DlState :=
      if r.1 then r.2
      else {r.2 with logs := r.2.logs ++
        [str "Page " ++ natToCh page ++ str " could not be downloaded with any extension."]}
    chapterLoop base_download_link download_path net rest st1

/-- `download_chapter(item_info, pages_per_chapter, manga_name, task_info)`
from `src/download_utils.py`: derive the download directory from the chapter
index, read `pages_per_chapter[indx_chapter]` (in-range for every caller;
out-of-range would raise in Python and is defaulted here), and download pages
`1..num_pages`. -/
def download_chapter (item_info : Nat × PyStr) (pages_per_chapter : List PyStr)
    (manga_name : PyStr) (net : PyStr → GetOutcome) (st : DlState) : DlState :=
  let download_path := create_download_directory manga_name item_info.1
  let num_pages := pyInt (pages_per_chapter.getD item_info.1 (str "0"))
  chapterLoop item_info.2 download_path net (List.range' 1 num_pages) st

/-- The `(indx, item)` pairs that `run_in_parallel` submits: `enumerate(items)`
in order (the worker pool and the progress sink are external collaborators). -/
def run_in_parallel_items (items : List PyStr) : List (Nat × PyStr) := items.enum

/-- One sweep of the `for future in list(futures.keys())` loop inside
`manage_running_tasks`: every future observed in the running state at sweep
`t` is popped from the map (its task is made visible on the external progress
sink). -/
def managePass {α : Type} (running : Nat → α → Bool) (t : Nat) (futures : List α) :
    List α :=
  futures.filter fun f => !(running t f)

/-- `manage_running_tasks(futures, job_progress)` from
`src/download_utils.py`, modelled as the trajectory of the `while futures:`
loop: `manage_running_tasks running futures t` is the content of the futures
map after `t` sweeps, where `running t f` is what `f.running()` returns when
observed during sweep `t`.  The real loop terminates exactly when one of these
states is empty. -/
def manage_running_tasks {α : Type} (running : Nat → α → Bool) (futures : List α) :
    Nat → List α
  | 0 => futures
  | t + 1 => managePass running t (manage_running_tasks running futures t)

/-- Whether a `SESSION.get` outcome makes `attempt_download_page` move on to
the next extension: a raised request exception, or any status other than
`HTTP_STATUS_OK` (predicate used to state the extension-priority claim). -/
def getFailed : GetOutcome → Bool
  | GetOutcome.reqError => true
  | GetOutcome.resp s _ => decide (s ≠ HTTP_STATUS_OK)

/-!  Concrete oracles used by the claim witnesses and evaluations. -/

/-- Resolution oracle for the C8 witness: chapter `u` fails to resolve; every
other chapter resolves to `base/<url>/`. -/
def C8resolve : PyStr → Option PyStr := fun x =>
  if x = str "u" then none else some (str "base/" ++ x ++ str "/")

/-- The link a successful chapter resolves to in the C8 witness. -/
def C8L : PyStr → PyStr := fun x => str "base/" ++ x ++ str "/"

/-- Per-chapter probe oracle for the C4 witness: the chapter `/read/a` fails
every attempt with a caught network error; every other chapter's first attempt
finds the page selector with option text `1/12`. -/
def C4outcome : PyStr → Nat → ChapterFetchOutcome := fun u _ =>
  if chContains u (str "/read/a") then ChapterFetchOutcome.netError
  else ChapterFetchOutcome.found (str "1/12")

/-- Random-draw oracle for the C4 witness. -/
def C4rand : PyStr → Nat → ℚ := fun _ _ => 0

/-- The script text of the spec's redirect-challenge scenario:
`document.cookie="sess=abc123"; location.href="https://example.org/real"`. -/
def C5script : PyStr :=
  str "document.cookie=" ++ [quoteCh] ++ str "sess=abc123" ++ [quoteCh]
    ++ str "; location.href=" ++ [quoteCh] ++ str "https://example.org/real" ++ [quoteCh]

/-- The fetched document of the C5 scenario. -/
def C5doc : Doc := ⟨some C5script⟩

/-- The network oracle of the C5 scenario: the second GET succeeds with body
`final-page`. -/
def C5get : PyStr → PyStr × PyStr → Nat × PyStr := fun _ _ => (200, str "final-page")

/-- The parse oracle of the C5 scenario. -/
def C5parse : PyStr → Doc := fun t => ⟨some t⟩

/-- Network oracle for the C6 witness: the page exists only as `.png`
(status 200); every other URL answers 404. -/
def C6net : PyStr → GetOutcome := fun url =>
  if url = str "http://cdn/ch/1.png" then GetOutcome.resp 200 [some [7]]
  else GetOutcome.resp 404 []


/-- The observation oracle for the C9 witness: no future is ever observed
running. -/
def C9running : Nat → Nat → Bool := fun _ _ => false

/-- The resolution oracle for the C10 witness: the chapter resolves to a link
whose first page is a `.webp` file. -/
def C10resolve : PyStr → Option PyStr := fun _ => some (str "https://cdn.example/x/1.webp")

/-- Per-attempt oracle for the C7 witness: every page-count probe attempt
raises a caught network error. -/
def C7co : Nat → ChapterFetchOutcome := fun _ => ChapterFetchOutcome.netError

/-- Per-attempt oracle for the C7 witness: every link-resolution attempt
raises a caught network error. -/
def C7lo : Nat → LinkFetchOutcome := fun _ => LinkFetchOutcome.netError

/-- Random-draw oracle for the C7 witness: always draw 0. -/
def C7rand : Nat → ℚ := fun _ => 0

/-- A chapter URL for the C2 evaluation. -/
def C2url : PyStr := str "https://www.mangaworld.ac/read/abc"

/-- A publication type outside the classic-paginated family and not
`Manhwa`. -/
def C2type : PyStr := str "unsupported-type"

/-- Per-attempt oracle reflecting the behaviour of `aiohttp` on a `None` URL:
`session.get(None)` raises `TypeError` from the URL constructor, which the
`except (aiohttp.ClientError, asyncio.TimeoutError)` clause does not catch. -/
def C2uncaught : Nat → LinkFetchOutcome := fun _ => LinkFetchOutcome.uncaught

/-- Per-attempt oracle for the most charitable reading, where each attempt
with the null URL fails with a caught error. -/
def C2caught : Nat → LinkFetchOutcome := fun _ => LinkFetchOutcome.netError

/-- Random-draw oracle for the C2 evaluation. -/
def C2rand : Nat → ℚ := fun _ => 0

/-!  Helper lemmas -/

lemma fsRead_fsWrite_self (fs : List (PyStr × List Nat)) (p : PyStr) (c : List Nat) :
    fsRead (fsWrite fs p c) p = some c := by
  unfold fsRead fsWrite
  induction fs with
  | nil => simp
  | cons e rest ih =>
    by_cases h : e.1 = p
    · simp [h]
    · simp [h]

lemma find_filter_ne (fs : List (PyStr × List Nat)) (p q : PyStr) (h : q ≠ p) :
    List.find? (fun e => e.1 = q) (fs.filter (fun e => e.1 ≠ p))
      = List.find? (fun e => e.1 = q) fs := by
  induction fs with
  | nil => rfl
  | cons e rest ih =>
    by_cases he : e.1 = p
    · have heq : ¬ (e.1 = q) := by rw [he]; exact Ne.symm h
      rw [List.filter_cons_of_neg (by simpa using he), ih,
        List.find?_cons_of_neg rest (by simpa using heq)]
    · by_cases heq : e.1 = q
      · rw [List.filter_cons_of_pos (by simpa using he),
          List.find?_cons_of_pos _ (by simpa using heq),
          List.find?_cons_of_pos rest (by simpa using heq)]
      · rw [List.filter_cons_of_pos (by simpa using he),
          List.find?_cons_of_neg _ (by simpa using heq), ih,
          List.find?_cons_of_neg rest (by simpa using heq)]

lemma fsRead_fsWrite_other (fs : List (PyStr × List Nat)) (p q : PyStr) (c : List Nat)
    (h : q ≠ p) : fsRead (fsWrite fs p c) q = fsRead fs q := by
  unfold fsRead fsWrite
  rw [List.find?_append, find_filter_ne fs p q h]
  have hone : List.find? (fun e => e.1 = q) [(p, c)] = none := by
    simp [Ne.symm h]
  rw [hone]
  simp

lemma download_page_spec (chunks : List (Option (List Nat))) (page : Nat)
    (extension path : PyStr) (st : DlState) :
    (download_page chunks page extension path st).requests = st.requests
    ∧ fsRead (download_page chunks page extension path st).fs
        (pagePath path page extension) = some (joinChunks chunks)
    ∧ ∀ q, q ≠ pagePath path page extension →
        fsRead (download_page chunks page extension path st).fs q = fsRead st.fs q :=
  ⟨rfl, fsRead_fsWrite_self st.fs _ _,
   fun q hq => fsRead_fsWrite_other st.fs _ q _ hq⟩

lemma attemptLoop_cons_success (page : Nat) (base path : PyStr) (net : PyStr → GetOutcome)
    (e : PyStr) (rest : List PyStr) (st : DlState) (chunks : List (Option (List Nat)))
    (h : net (pageLink base page e) = GetOutcome.resp HTTP_STATUS_OK chunks) :
    attemptLoop page base path net (e :: rest) st
      = (true, download_page chunks page e path
          ⟨st.fs, st.requests ++ [pageLink base page e], st.logs⟩) := by
  rw [attemptLoop, h]
  simp

lemma attemptLoop_cons_failed (page : Nat) (base path : PyStr) (net : PyStr → GetOutcome)
    (e : PyStr) (rest : List PyStr) (st : DlState)
    (h : getFailed (net (pageLink base page e)) = true) :
    ∃ lg2, attemptLoop page base path net (e :: rest) st
      = attemptLoop page base path net rest
          ⟨st.fs, st.requests ++ [pageLink base page e], lg2⟩ := by
  cases hnet : net (pageLink base page e) with
  | reqError =>
    refine ⟨st.logs ++ [str "Failed attempt with " ++ pageLink base page e], ?_⟩
    rw [attemptLoop, hnet]
  | resp s chunks =>
    have hs : ¬ (s = HTTP_STATUS_OK) := by
      rw [hnet] at h
      simpa [getFailed] using h
    refine ⟨st.logs, ?_⟩
    rw [attemptLoop, hnet]
    simp [hs]


lemma chStartsWith_append_self (p x : PyStr) : chStartsWith (p ++ x) p = true := by
  induction p with
  | nil => cases x <;> simp [chStartsWith]
  | cons c cs ih => simp [chStartsWith, ih]

lemma chEndsWith_append (s t : PyStr) : chEndsWith (s ++ t) t = true := by
  unfold chEndsWith
  rw [List.reverse_append]
  exact chStartsWith_append_self t.reverse s.reverse

lemma chDropRight_append (s t : PyStr) : chDropRight (s ++ t) t.length = s := by
  unfold chDropRight
  rw [List.reverse_append, ← List.length_reverse t, List.drop_left, List.reverse_reverse]

lemma chStartsWith_cons_false {c p : Char} (cs ps : PyStr) (h : c ≠ p) :
    chStartsWith (c :: cs) (p :: ps) = false := by
  simp [chStartsWith, h]

lemma chEndsWith_webp_shape {l : PyStr} (h : chEndsWith l (str "1.webp") = true) :
    ∃ r, l.reverse = 'p' :: r := by
  unfold chEndsWith at h
  have hrev : (str "1.webp").reverse = ['p', 'b', 'e', 'w', '.', '1'] := by decide
  rw [hrev] at h
  cases hl : l.reverse with
  | nil => rw [hl] at h; simp [chStartsWith] at h
  | cons c cs =>
    rw [hl] at h
    simp [chStartsWith] at h
    exact ⟨cs, by rw [h.1]⟩

lemma chEndsWith_of_webp {l : PyStr} (h : chEndsWith l (str "1.webp") = true) :
    chEndsWith l (str "1.png") = false ∧ chEndsWith l (str "1.gif") = false
    ∧ chEndsWith l (str "1.jpg") = false := by
  obtain ⟨r, hr⟩ := chEndsWith_webp_shape h
  refine ⟨?_, ?_, ?_⟩ <;> unfold chEndsWith <;> rw [hr]
  · rw [show (str "1.png").reverse = ['g', 'n', 'p', '.', '1'] from by decide]
    exact chStartsWith_cons_false _ _ (by decide)
  · rw [show (str "1.gif").reverse = ['f', 'i', 'g', '.', '1'] from by decide]
    exact chStartsWith_cons_false _ _ (by decide)
  · rw [show (str "1.jpg").reverse = ['g', 'p', 'j', '.', '1'] from by decide]
    exact chStartsWith_cons_false _ _ (by decide)

lemma stripFirstPageSuffix_append_png (s : PyStr) :
    stripFirstPageSuffix (s ++ str "1.png") = s := by
  have he := chEndsWith_append s (str "1.png")
  have hd := chDropRight_append s (str "1.png")
  simp only [show (str "1.png").length = 5 from rfl] at hd
  simp [stripFirstPageSuffix, he, hd]

lemma stripFirstPageSuffix_append_gif (s : PyStr) :
    stripFirstPageSuffix (s ++ str "1.gif") = s := by
  have he := chEndsWith_append s (str "1.gif")
  have hd := chDropRight_append s (str "1.gif")
  simp only [show (str "1.gif").length = 5 from rfl] at hd
  simp [stripFirstPageSuffix, he, hd]

lemma stripFirstPageSuffix_append_jpg (s : PyStr) :
    stripFirstPageSuffix (s ++ str "1.jpg") = s := by
  have he := chEndsWith_append s (str "1.jpg")
  have hd := chDropRight_append s (str "1.jpg")
  simp only [show (str "1.jpg").length = 5 from rfl] at hd
  simp [stripFirstPageSuffix, he, hd]

lemma fetchChapterLoop_allfail (url : PyStr) (outcome : Nat → ChapterFetchOutcome)
    (rand : Nat → ℚ)
    (hfail : ∀ a, outcome a = ChapterFetchOutcome.noPageItem
      ∨ outcome a = ChapterFetchOutcome.netError) :
    ∀ (l : List Nat) (tr : NetTrace),
      (fetchChapterLoop url outcome rand l tr).1 = (none, none)
      ∧ (fetchChapterLoop url outcome rand l tr).2.gets.length = tr.gets.length + l.length
      ∧ (fetchChapterLoop url outcome rand l tr).2.logs
          = tr.logs ++ [str "Failed to fetch chapter data for " ++ url ++ str "."] := by
  intro l
  induction l with
  | nil => intro tr; exact ⟨rfl, rfl, rfl⟩
  | cons a rest ih =>
    intro tr
    rcases hfail a with h | h <;>
    · simp only [fetchChapterLoop, h]
      refine ⟨(ih _).1, ?_, ?_⟩
      · rw [(ih _).2.1]
        split <;> simp <;> omega
      · rw [(ih _).2.2]
        split <;> simp

lemma fetchChapterLoop_sleeps_allfail (url : PyStr) (outcome : Nat → ChapterFetchOutcome)
    (rand : Nat → ℚ)
    (hfail : ∀ a, outcome a = ChapterFetchOutcome.noPageItem
      ∨ outcome a = ChapterFetchOutcome.netError) :
    ∀ (l : List Nat) (tr : NetTrace), l ≠ [] →
      (fetchChapterLoop url outcome rand l tr).2.sleeps.length
        = tr.sleeps.length + (l.length - 1) := by
  intro l
  induction l with
  | nil => intro tr h; exact absurd rfl h
  | cons a rest ih =>
    intro tr _
    rcases hfail a with h | h <;>
    · simp only [fetchChapterLoop, h]
      cases hr : rest with
      | nil => simp [fetchChapterLoop]
      | cons b rs =>
        rw [← hr]
        have hne : rest ≠ [] := by rw [hr]; exact List.cons_ne_nil b rs
        rw [ih _ hne]
        simp [hne, hr]
        omega

lemma fetchChapterLoop_sleeps_mem (url : PyStr) (outcome : Nat → ChapterFetchOutcome)
    (rand : Nat → ℚ) :
    ∀ (l : List Nat) (tr : NetTrace) (d : ℚ),
      d ∈ (fetchChapterLoop url outcome rand l tr).2.sleeps →
      d ∈ tr.sleeps ∨ ∃ a, d = uniform 1 ((WAIT_TIME_RETRIES : ℚ) - 1) (rand a) := by
  intro l
  induction l with
  | nil => intro tr d hd; exact Or.inl hd
  | cons a rest ih =>
    intro tr d hd
    rw [fetchChapterLoop] at hd
    cases h : outcome a with
    | found t => rw [h] at hd; exact Or.inl hd
    | noPageItem =>
      rw [h] at hd
      rcases ih _ _ hd with hmem | hval
      · by_cases hr : rest ≠ []
        · simp [hr] at hmem
          rcases hmem with hm | hm
          · exact Or.inl hm
          · exact Or.inr ⟨a, hm⟩
        · simp [hr] at hmem
          exact Or.inl hmem
      · exact Or.inr hval
    | netError =>
      rw [h] at hd
      rcases ih _ _ hd with hmem | hval
      · by_cases hr : rest ≠ []
        · simp [hr] at hmem
          rcases hmem with hm | hm
          · exact Or.inl hm
          · exact Or.inr ⟨a, hm⟩
        · simp [hr] at hmem
          exact Or.inl hmem
      · exact Or.inr hval

lemma fetchChapterLoop_gets_le (url : PyStr) (outcome : Nat → ChapterFetchOutcome)
    (rand : Nat → ℚ) :
    ∀ (l : List Nat) (tr : NetTrace),
      (fetchChapterLoop url outcome rand l tr).2.gets.length ≤ tr.gets.length + l.length := by
  intro l
  induction l with
  | nil => intro tr; simp [fetchChapterLoop]
  | cons a rest ih =>
    intro tr
    rw [fetchChapterLoop]
    cases h : outcome a with
    | found t => simp; try omega
    | noPageItem =>
      refine le_trans (ih _) ?_
      split <;> simp <;> try omega
    | netError =>
      refine le_trans (ih _) ?_
      split <;> simp <;> try omega

lemma fetchChapterLoop_gets_sleeps (url : PyStr) (outcome : Nat → ChapterFetchOutcome)
    (rand : Nat → ℚ) :
    ∀ (l : List Nat) (tr : NetTrace), l ≠ [] →
      tr.gets.length = tr.sleeps.length →
      (fetchChapterLoop url outcome rand l tr).2.gets.length
        = (fetchChapterLoop url outcome rand l tr).2.sleeps.length + 1 := by
  intro l
  induction l with
  | nil => intro tr h; exact absurd rfl h
  | cons a rest ih =>
    intro tr _ hinv
    rw [fetchChapterLoop]
    cases h : outcome a with
    | found t => simp [hinv]
    | noPageItem =>
      cases hr : rest with
      | nil => simp [fetchChapterLoop, hinv]
      | cons b rs =>
        rw [← hr]
        have hne : rest ≠ [] := by rw [hr]; exact List.cons_ne_nil b rs
        refine ih _ hne ?_
        simp [hne, hinv]
    | netError =>
      cases hr : rest with
      | nil => simp [fetchChapterLoop, hinv]
      | cons b rs =>
        rw [← hr]
        have hne : rest ≠ [] := by rw [hr]; exact List.cons_ne_nil b rs
        refine ih _ hne ?_
        simp [hne, hinv]

lemma fetchLinkLoop_allfail (url : PyStr) (utf : Option PyStr)
    (outcome : Nat → LinkFetchOutcome) (rand : Nat → ℚ)
    (hfail : ∀ a, outcome a = LinkFetchOutcome.noImgItems
      ∨ outcome a = LinkFetchOutcome.netError) :
    ∀ (l : List Nat) (tr : NetTrace),
      (fetchLinkLoop url utf outcome rand l tr).1 = Except.ok none
      ∧ (fetchLinkLoop url utf outcome rand l tr).2.gets.length = tr.gets.length + l.length
      ∧ (fetchLinkLoop url utf outcome rand l tr).2.logs
          = tr.logs ++ [str "Failed to fetch download link for " ++ url ++ str "."] := by
  intro l
  induction l with
  | nil => intro tr; exact ⟨rfl, rfl, rfl⟩
  | cons a rest ih =>
    intro tr
    rcases hfail a with h | h <;>
    · simp only [fetchLinkLoop, h]
      refine ⟨(ih _).1, ?_, ?_⟩
      · rw [(ih _).2.1]
        split <;> simp <;> try omega
      · rw [(ih _).2.2]
        split <;> simp

lemma fetchLinkLoop_sleeps_allfail (url : PyStr) (utf : Option PyStr)
    (outcome : Nat → LinkFetchOutcome) (rand : Nat → ℚ)
    (hfail : ∀ a, outcome a = LinkFetchOutcome.noImgItems
      ∨ outcome a = LinkFetchOutcome.netError) :
    ∀ (l : List Nat) (tr : NetTrace), l ≠ [] →
      (fetchLinkLoop url utf outcome rand l tr).2.sleeps.length
        = tr.sleeps.length + (l.length - 1) := by
  intro l
  induction l with
  | nil => intro tr h; exact absurd rfl h
  | cons a rest ih =>
    intro tr _
    rcases hfail a with h | h <;>
    · simp only [fetchLinkLoop, h]
      cases hr : rest with
      | nil => simp [fetchLinkLoop]
      | cons b rs =>
        rw [← hr]
        have hne : rest ≠ [] := by rw [hr]; exact List.cons_ne_nil b rs
        rw [ih _ hne]
        simp [hne, hr]
        omega

lemma fetchLinkLoop_sleeps_mem (url : PyStr) (utf : Option PyStr)
    (outcome : Nat → LinkFetchOutcome) (rand : Nat → ℚ) :
    ∀ (l : List Nat) (tr : NetTrace) (d : ℚ),
      d ∈ (fetchLinkLoop url utf outcome rand l tr).2.sleeps →
      d ∈ tr.sleeps ∨ ∃ a, d = 1 + uniform 0 (WAIT_TIME_RETRIES : ℚ) (rand a) := by
  intro l
  induction l with
  | nil => intro tr d hd; exact Or.inl hd
  | cons a rest ih =>
    intro tr d hd
    rw [fetchLinkLoop] at hd
    cases h : outcome a with
    | found t => rw [h] at hd; exact Or.inl hd
    | uncaught => rw [h] at hd; exact Or.inl hd
    | noImgItems =>
      rw [h] at hd
      rcases ih _ _ hd with hmem | hval
      · by_cases hr : rest ≠ []
        · simp [hr] at hmem
          rcases hmem with hm | hm
          · exact Or.inl hm
          · exact Or.inr ⟨a, hm⟩
        · simp [hr] at hmem
          exact Or.inl hmem
      · exact Or.inr hval
    | netError =>
      rw [h] at hd
      rcases ih _ _ hd with hmem | hval
      · by_cases hr : rest ≠ []
        · simp [hr] at hmem
          rcases hmem with hm | hm
          · exact Or.inl hm
          · exact Or.inr ⟨a, hm⟩
        · simp [hr] at hmem
          exact Or.inl hmem
      · exact Or.inr hval

lemma fetchLinkLoop_gets_le (url : PyStr) (utf : Option PyStr)
    (outcome : Nat → LinkFetchOutcome) (rand : Nat → ℚ) :
    ∀ (l : List Nat) (tr : NetTrace),
      (fetchLinkLoop url utf outcome rand l tr).2.gets.length
        ≤ tr.gets.length + l.length := by
  intro l
  induction l with
  | nil => intro tr; simp [fetchLinkLoop]
  | cons a rest ih =>
    intro tr
    rw [fetchLinkLoop]
    cases h : outcome a with
    | found t => simp; try omega
    | uncaught => simp; try omega
    | noImgItems =>
      refine le_trans (ih _) ?_
      split <;> simp <;> try omega
    | netError =>
      refine le_trans (ih _) ?_
      split <;> simp <;> try omega

lemma fetchLinkLoop_gets_mem (url : PyStr) (utf : Option PyStr)
    (outcome : Nat → LinkFetchOutcome) (rand : Nat → ℚ) :
    ∀ (l : List Nat) (tr : NetTrace) (g : Option PyStr),
      g ∈ (fetchLinkLoop url utf outcome rand l tr).2.gets →
      g ∈ tr.gets ∨ g = utf := by
  intro l
  induction l with
  | nil => intro tr g hg; exact Or.inl hg
  | cons a rest ih =>
    intro tr g hg
    rw [fetchLinkLoop] at hg
    cases h : outcome a with
    | found t =>
      rw [h] at hg
      simp at hg
      rcases hg with hm | hm
      · exact Or.inl hm
      · exact Or.inr hm
    | uncaught =>
      rw [h] at hg
      simp at hg
      rcases hg with hm | hm
      · exact Or.inl hm
      · exact Or.inr hm
    | noImgItems =>
      rw [h] at hg
      rcases ih _ _ hg with hmem | hval
      · by_cases hr : rest ≠ [] <;> simp [hr] at hmem <;>
          rcases hmem with hm | hm
        · exact Or.inl hm
        · exact Or.inr hm
        · exact Or.inl hm
        · exact Or.inr hm
      · exact Or.inr hval
    | netError =>
      rw [h] at hg
      rcases ih _ _ hg with hmem | hval
      · by_cases hr : rest ≠ [] <;> simp [hr] at hmem <;>
          rcases hmem with hm | hm
        · exact Or.inl hm
        · exact Or.inr hm
        · exact Or.inl hm
        · exact Or.inr hm
      · exact Or.inr hval

lemma fetchLinkLoop_gets_sleeps (url : PyStr) (utf : Option PyStr)
    (outcome : Nat → LinkFetchOutcome) (rand : Nat → ℚ) :
    ∀ (l : List Nat) (tr : NetTrace), l ≠ [] →
      tr.gets.length = tr.sleeps.length →
      (fetchLinkLoop url utf outcome rand l tr).2.gets.length
        = (fetchLinkLoop url utf outcome rand l tr).2.sleeps.length + 1 := by
  intro l
  induction l with
  | nil => intro tr h; exact absurd rfl h
  | cons a rest ih =>
    intro tr _ hinv
    rw [fetchLinkLoop]
    cases h : outcome a with
    | found t => simp [hinv]
    | uncaught => simp [hinv]
    | noImgItems =>
      cases hr : rest with
      | nil => simp [fetchLinkLoop, hinv]
      | cons b rs =>
        rw [← hr]
        have hne : rest ≠ [] := by rw [hr]; exact List.cons_ne_nil b rs
        refine ih _ hne ?_
        simp [hne, hinv]
    | netError =>
      cases hr : rest with
      | nil => simp [fetchLinkLoop, hinv]
      | cons b rs =>
        rw [← hr]
        have hne : rest ≠ [] := by rw [hr]; exact List.cons_ne_nil b rs
        refine ih _ hne ?_
        simp [hne, hinv]

lemma fetchChapterLoop_cases (url : PyStr) (outcome : Nat → ChapterFetchOutcome)
    (rand : Nat → ℚ) :
    ∀ (l : List Nat) (tr : NetTrace),
      (fetchChapterLoop url outcome rand l tr).1 = (none, none)
      ∨ ∃ p, (fetchChapterLoop url outcome rand l tr).1 = (some url, some p) := by
  intro l
  induction l with
  | nil => intro tr; exact Or.inl rfl
  | cons a rest ih =>
    intro tr
    rw [fetchChapterLoop]
    cases h : outcome a with
    | found t => exact Or.inr ⟨parseNumPages t, rfl⟩
    | noPageItem => exact ih _
    | netError => exact ih _

lemma fetch_chapter_data_cases (url : PyStr) (outcome : Nat → ChapterFetchOutcome)
    (rand : Nat → ℚ) :
    (fetch_chapter_data url outcome rand).1 = (none, none)
    ∨ ∃ p, (fetch_chapter_data url outcome rand).1 = (some url, some p) :=
  fetchChapterLoop_cases url outcome rand (List.range MAX_RETRIES) ⟨[], [], []⟩

lemma chContains_nil_readLit : chContains [] (str "/read/") = false := by decide

lemma chapters_pairs_spec (F : PyStr → Option PyStr × Option PyStr)
    (hF : ∀ u, F u = (none, none) ∨ ∃ p, F u = (some u, some p)) :
    ∀ l : List PyStr, (∀ u ∈ l, u ≠ []) →
      ((l.map F).filterMap keepProbed).map Prod.fst
        = l.filter (fun u => ((F u).1).isSome)
      ∧ ∀ pr ∈ (l.map F).filterMap keepProbed, F pr.1 = (some pr.1, some pr.2) := by
  intro l
  induction l with
  | nil => exact fun _ => ⟨rfl, by intro pr hpr; simp at hpr⟩
  | cons u rest ih =>
    intro hne
    have hu : u ≠ [] := hne u (List.mem_cons_self u rest)
    have hrest : ∀ v ∈ rest, v ≠ [] := fun v hv => hne v (List.mem_cons_of_mem u hv)
    obtain ⟨ha, hb⟩ := ih hrest
    rcases hF u with hFu | ⟨p, hFu⟩
    · have hk : keepProbed (F u) = none := by rw [hFu]; rfl
      constructor
      · rw [List.map_cons, List.filterMap_cons, hk, ha, List.filter_cons]
        have : ((F u).1.isSome : Bool) = false := by rw [hFu]; rfl
        rw [this]
        simp
      · intro pr hpr
        rw [List.map_cons, List.filterMap_cons, hk] at hpr
        exact hb pr hpr
    · have hk : keepProbed (F u) = some (u, p) := by
        rw [hFu]
        simp [keepProbed, hu]
      constructor
      · rw [List.map_cons, List.filterMap_cons, hk, List.map_cons, ha, List.filter_cons]
        have : ((F u).1.isSome : Bool) = true := by rw [hFu]; rfl
        rw [this]
        simp
      · intro pr hpr
        rw [List.map_cons, List.filterMap_cons, hk] at hpr
        rcases List.mem_cons.mp hpr with rfl | hpr2
        · exact hFu
        · exact hb pr hpr2

lemma zip_map_fst_snd {α β : Type} (M : List (α × β)) :
    List.zip (M.map Prod.fst) (M.map Prod.snd) = M := by
  induction M with
  | nil => rfl
  | cons e rest ih => simp [ih]

lemma pySlice_full {α : Type} (l : List α) : pySlice l 0 (l.length : Int) = l := by
  unfold pySlice
  simp
  omega

lemma keepLink_some_ne (s : PyStr) (h : s ≠ []) :
    keepLink (some s) = some (stripFirstPageSuffix s) := by
  simp [keepLink, h]

lemma filterMap_keepLink_all (resolve : PyStr → Option PyStr) (L : PyStr → PyStr) :
    ∀ l : List PyStr, (∀ x ∈ l, resolve x = some (L x) ∧ L x ≠ []) →
      (l.map resolve).filterMap keepLink = l.map fun x => stripFirstPageSuffix (L x) := by
  intro l
  induction l with
  | nil => intro _; rfl
  | cons x rest ih =>
    intro h
    have hx := h x (List.mem_cons_self x rest)
    have hrest : ∀ v ∈ rest, resolve v = some (L v) ∧ L v ≠ [] :=
      fun v hv => h v (List.mem_cons_of_mem x hv)
    rw [List.map_cons, List.filterMap_cons, hx.1, keepLink_some_ne _ hx.2,
      ih hrest, List.map_cons]

/-!  Claim theorems -/

/-- C3, counterexample: the claim states that `validate_chapter_range` rejects
(logs and exits on) `start_chapter = 0`; on the code, `if start_chapter:` is
false for `0` (Python truthiness), the range check is skipped, and the call
returns the full window `(0, num_chapters)` instead of exiting. -/
theorem C3_counterexample :
    validate_chapter_range (some 0) none 10 = Except.ok (0, 10) := rfl

/-- C3, amended: `validate_chapter_range` treats `start_chapter = 0` exactly
like an omitted bound (it is falsy, so it is not rejected); a nonzero
`start_chapter` is rejected when it is below 1 or above `num_chapters`, and a
nonzero pair with `start > end` is rejected; omitted bounds yield the full
index window `(0, num_chapters)`, and valid nonzero bounds yield
`(start - 1, end)`. -/
theorem C3_validate_chapter_range (s e : Int) (eo : Option Int) (n : Int) :
    (validate_chapter_range none none n = Except.ok (0, n))
    ∧ (validate_chapter_range (some 0) eo n = validate_chapter_range none eo n)
    ∧ (s ≠ 0 → (s < 1 ∨ s > n) →
        validate_chapter_range (some s) eo n =
          Except.error (str "Start chapter must be between 1 and " ++ intToCh n ++ str "."))
    ∧ (s ≠ 0 → e ≠ 0 → 1 ≤ s → s ≤ n → e < s →
        validate_chapter_range (some s) (some e) n =
          Except.error (str "Start chapter cannot be greater than end episode."))
    ∧ (s ≠ 0 → 1 ≤ s → s ≤ n →
        validate_chapter_range (some s) none n = Except.ok (s - 1, n))
    ∧ (s ≠ 0 → e ≠ 0 → 1 ≤ s → s ≤ n → s ≤ e →
        validate_chapter_range (some s) (some e) n = Except.ok (s - 1, e)) := by
  refine ⟨?_, ?_, ?_, ?_, ?_, ?_⟩
  · simp [validate_chapter_range, truthyInt]
  · simp [validate_chapter_range, truthyInt]
  · intro hs h
    have ht : truthyInt (some s) = true := by simp [truthyInt, hs]
    simp only [validate_chapter_range, Option.getD_some]
    rw [if_pos ⟨ht, h⟩]
  · intro hs he h1 hn hlt
    have ht : truthyInt (some s) = true := by simp [truthyInt, hs]
    have hte : truthyInt (some e) = true := by simp [truthyInt, he]
    simp only [validate_chapter_range, Option.getD_some]
    rw [if_neg (by rintro ⟨-, h⟩; omega), if_pos ⟨ht, hte, by omega⟩]
  · intro hs h1 hn
    have ht : truthyInt (some s) = true := by simp [truthyInt, hs]
    simp only [validate_chapter_range, Option.getD_some]
    rw [if_neg (by rintro ⟨-, h⟩; omega),
        if_neg (by rintro ⟨-, h, -⟩; simp [truthyInt] at h),
        if_neg (by rintro ⟨-, h, -⟩; simp [truthyInt] at h)]
    simp [ht, truthyInt, hs]
  · intro hs he h1 hn hle
    have ht : truthyInt (some s) = true := by simp [truthyInt, hs]
    have hte : truthyInt (some e) = true := by simp [truthyInt, he]
    simp only [validate_chapter_range, Option.getD_some]
    rw [if_neg (by rintro ⟨-, h⟩; omega),
        if_neg (by rintro ⟨-, -, h⟩; omega),
        if_neg (by rintro ⟨-, -, h⟩; omega)]
    simp [ht, hte, hs, he]

/-- C3, witness: concrete instances of the amended statement — omitted bounds
give the full window, `start = 9 > 7` and `start = 5 > end = 2` are rejected
with the logged messages, and `start = 2, end = 5` gives `(1, 5)`. -/
theorem C3_witness :
    validate_chapter_range none none 7 = Except.ok (0, 7)
    ∧ validate_chapter_range (some 9) none 7 =
        Except.error (str "Start chapter must be between 1 and " ++ intToCh 7 ++ str ".")
    ∧ validate_chapter_range (some 5) (some 2) 7 =
        Except.error (str "Start chapter cannot be greater than end episode.")
    ∧ validate_chapter_range (some 2) (some 5) 7 = Except.ok (1, 5) :=
  ⟨(C3_validate_chapter_range 9 2 none 7).1,
   (C3_validate_chapter_range 9 2 none 7).2.2.1 (by decide) (Or.inr (by decide)),
   (C3_validate_chapter_range 5 2 none 7).2.2.2.1 (by decide) (by decide) (by decide)
     (by decide) (by decide),
   (C3_validate_chapter_range 2 5 none 7).2.2.2.2.2 (by decide) (by decide) (by decide)
     (by decide) (by decide)⟩

/-- C9: `manage_running_tasks` pops a future from its map only during a sweep
that observes it in the running state; a future that is never observed running
survives every sweep, so the `while futures:` guard stays true forever — the
loop terminates only if every submitted future is observed running before it
completes. -/
theorem C9_manage_running_tasks {α : Type} (running : Nat → α → Bool)
    (futures : List α) (f : α) (hmem : f ∈ futures)
    (hnever : ∀ t, running t f = false) :
    (∀ n, f ∈ manage_running_tasks running futures n
      ∧ manage_running_tasks running futures n ≠ [])
    ∧ (∀ (g : α) (t : Nat), g ∈ manage_running_tasks running futures t →
        g ∉ manage_running_tasks running futures (t + 1) → running t g = true) := by
  constructor
  · intro n
    induction n with
    | zero =>
      refine ⟨hmem, fun h => ?_⟩
      rw [manage_running_tasks] at h
      simp [h] at hmem
    | succ t ih =>
      have hf : f ∈ manage_running_tasks running futures (t + 1) := by
        rw [manage_running_tasks, managePass]
        exact List.mem_filter.mpr ⟨ih.1, by simp [hnever t]⟩
      exact ⟨hf, fun h => by simp [h] at hf⟩
  · intro g t hg hng
    by_contra hr
    have hfalse : running t g = false := by
      revert hr; cases running t g <;> simp
    apply hng
    rw [manage_running_tasks, managePass]
    exact List.mem_filter.mpr ⟨hg, by simp [hfalse]⟩

/-- C9, witness: with a single submitted future that is never observed
running, the futures map is still non-empty after three sweeps. -/
theorem C9_witness :
    0 ∈ manage_running_tasks C9running [0] 3
    ∧ manage_running_tasks C9running [0] 3 ≠ [] :=
  (C9_manage_running_tasks C9running [0] 0 (by decide) (fun _ => rfl)).1 3

/-- C10: the `FIRST_PAGE_SUFFIX_REGEX` substitution in
`extract_download_links` strips exactly a trailing `1.png`, `1.gif` or `1.jpg`
from a resolved link; a link with any other ending — in particular `1.webp`,
although `.webp` is among `PAGE_EXTENSIONS` — passes through unchanged, so the
derived base still contains the first page's filename. -/
theorem C10_strip_first_page_suffix :
    (∀ s : PyStr, stripFirstPageSuffix (s ++ str "1.png") = s)
    ∧ (∀ s : PyStr, stripFirstPageSuffix (s ++ str "1.gif") = s)
    ∧ (∀ s : PyStr, stripFirstPageSuffix (s ++ str "1.jpg") = s)
    ∧ (∀ s : PyStr, chEndsWith s (str "1.png") = false →
        chEndsWith s (str "1.gif") = false → chEndsWith s (str "1.jpg") = false →
        stripFirstPageSuffix s = s)
    ∧ (∀ u link : PyStr, link ≠ [] → chEndsWith link (str "1.webp") = true →
        ∀ resolve : PyStr → Option PyStr, resolve u = some link →
          extract_download_links [u] 0 1 resolve = [link]) := by
  refine ⟨stripFirstPageSuffix_append_png, stripFirstPageSuffix_append_gif,
    stripFirstPageSuffix_append_jpg, ?_, ?_⟩
  · intro s h1 h2 h3
    simp [stripFirstPageSuffix, h1, h2, h3]
  · intro u link hne hwebp resolve hres
    obtain ⟨e1, e2, e3⟩ := chEndsWith_of_webp hwebp
    have hstrip : stripFirstPageSuffix link = link := by
      simp [stripFirstPageSuffix, e1, e2, e3]
    simp [extract_download_links, keepLink, pySlice, hres, hne, hstrip]

/-- C10, witness: a trailing `1.png` is stripped, while a link ending in
`1.webp` flows through `extract_download_links` unchanged. -/
theorem C10_witness :
    stripFirstPageSuffix (str "https://cdn.example/ch/" ++ str "1.png")
      = str "https://cdn.example/ch/"
    ∧ stripFirstPageSuffix (str "https://cdn.example/x/1.webp")
      = str "https://cdn.example/x/1.webp"
    ∧ extract_download_links [str "https://site/read/c1"] 0 1 C10resolve
      = [str "https://cdn.example/x/1.webp"] :=
  ⟨C10_strip_first_page_suffix.1 (str "https://cdn.example/ch/"),
   C10_strip_first_page_suffix.2.2.2.1 (str "https://cdn.example/x/1.webp")
     (by decide) (by decide) (by decide),
   C10_strip_first_page_suffix.2.2.2.2 (str "https://site/read/c1")
     (str "https://cdn.example/x/1.webp") (by decide) (by decide) C10resolve rfl⟩

/-- C7: under persistent upstream failure (every attempt raises a caught
network error or finds no matching element), both retry loops make exactly
`MAX_RETRIES` fetch attempts, sleep a randomized delay bounded by the
configuration (`[1, WAIT_TIME_RETRIES - 1]` for the page-count probe,
`[1, 1 + WAIT_TIME_RETRIES]` for the link resolver) between consecutive
attempts and never after the final one, and then return a null result with a
logged error instead of raising; for every oracle whatsoever, the number of
fetch attempts is at most `MAX_RETRIES` and exceeds the number of sleeps by
exactly one, so each probe/resolution terminates. -/
theorem C7_retry_loops_bounded (url mt : PyStr) (co : Nat → ChapterFetchOutcome)
    (lo : Nat → LinkFetchOutcome) (rc rl : Nat → ℚ)
    (hrc : ∀ a, 0 ≤ rc a ∧ rc a ≤ 1) (hrl : ∀ a, 0 ≤ rl a ∧ rl a ≤ 1)
    (hco : ∀ a, co a = ChapterFetchOutcome.noPageItem
      ∨ co a = ChapterFetchOutcome.netError)
    (hlo : ∀ a, lo a = LinkFetchOutcome.noImgItems
      ∨ lo a = LinkFetchOutcome.netError) :
    ((fetch_chapter_data url co rc).1 = (none, none)
      ∧ (fetch_chapter_data url co rc).2.gets.length = MAX_RETRIES
      ∧ (fetch_chapter_data url co rc).2.sleeps.length = MAX_RETRIES - 1
      ∧ (∀ d ∈ (fetch_chapter_data url co rc).2.sleeps,
          1 ≤ d ∧ d ≤ (WAIT_TIME_RETRIES : ℚ) - 1)
      ∧ (fetch_chapter_data url co rc).2.logs
          = [str "Failed to fetch chapter data for " ++ url ++ str "."])
    ∧ ((fetch_download_link url (some mt) lo rl).1 = Except.ok none
      ∧ (fetch_download_link url (some mt) lo rl).2.gets.length = MAX_RETRIES
      ∧ (fetch_download_link url (some mt) lo rl).2.sleeps.length = MAX_RETRIES - 1
      ∧ (∀ d ∈ (fetch_download_link url (some mt) lo rl).2.sleeps,
          1 ≤ d ∧ d ≤ 1 + (WAIT_TIME_RETRIES : ℚ))
      ∧ (fetch_download_link url (some mt) lo rl).2.logs
          = (generate_chapter_url url mt).2
            ++ [str "Failed to fetch download link for " ++ url ++ str "."])
    ∧ (∀ (co2 : Nat → ChapterFetchOutcome) (rc2 : Nat → ℚ),
        (fetch_chapter_data url co2 rc2).2.gets.length ≤ MAX_RETRIES
        ∧ (fetch_chapter_data url co2 rc2).2.gets.length
            = (fetch_chapter_data url co2 rc2).2.sleeps.length + 1)
    ∧ (∀ (lo2 : Nat → LinkFetchOutcome) (rl2 : Nat → ℚ),
        (fetch_download_link url (some mt) lo2 rl2).2.gets.length ≤ MAX_RETRIES
        ∧ (fetch_download_link url (some mt) lo2 rl2).2.gets.length
            = (fetch_download_link url (some mt) lo2 rl2).2.sleeps.length + 1) := by
  have hlenr : (List.range MAX_RETRIES).length = MAX_RETRIES := List.length_range _
  have hner : List.range MAX_RETRIES ≠ [] := by
    simp [List.range_eq_nil, MAX_RETRIES]
  refine ⟨⟨?_, ?_, ?_, ?_, ?_⟩, ⟨?_, ?_, ?_, ?_, ?_⟩, ?_, ?_⟩
  · exact (fetchChapterLoop_allfail url co rc hco (List.range MAX_RETRIES) ⟨[], [], []⟩).1
  · have h := (fetchChapterLoop_allfail url co rc hco (List.range MAX_RETRIES) ⟨[], [], []⟩).2.1
    rw [fetch_chapter_data, h]
    simp [hlenr]
  · have h := fetchChapterLoop_sleeps_allfail url co rc hco (List.range MAX_RETRIES)
      ⟨[], [], []⟩ hner
    rw [fetch_chapter_data, h]
    simp [hlenr]
  · intro d hd
    rw [fetch_chapter_data] at hd
    rcases fetchChapterLoop_sleeps_mem url co rc (List.range MAX_RETRIES) ⟨[], [], []⟩ d hd
      with hm | ⟨a, ha⟩
    · simp at hm
    · have hr := hrc a
      rw [ha]
      unfold uniform
      norm_num [WAIT_TIME_RETRIES]
      constructor <;> nlinarith [hr.1, hr.2]
  · have h := (fetchChapterLoop_allfail url co rc hco (List.range MAX_RETRIES) ⟨[], [], []⟩).2.2
    rw [fetch_chapter_data, h]
    simp
  · exact (fetchLinkLoop_allfail url (generate_chapter_url url mt).1 lo rl hlo
      (List.range MAX_RETRIES) ⟨[], [], (generate_chapter_url url mt).2⟩).1
  · have h := (fetchLinkLoop_allfail url (generate_chapter_url url mt).1 lo rl hlo
      (List.range MAX_RETRIES) ⟨[], [], (generate_chapter_url url mt).2⟩).2.1
    show (fetchLinkLoop url (generate_chapter_url url mt).1 lo rl (List.range MAX_RETRIES)
      ⟨[], [], (generate_chapter_url url mt).2⟩).2.gets.length = MAX_RETRIES
    rw [h]
    simp [hlenr]
  · have h := fetchLinkLoop_sleeps_allfail url (generate_chapter_url url mt).1 lo rl hlo
      (List.range MAX_RETRIES) ⟨[], [], (generate_chapter_url url mt).2⟩ hner
    show (fetchLinkLoop url (generate_chapter_url url mt).1 lo rl (List.range MAX_RETRIES)
      ⟨[], [], (generate_chapter_url url mt).2⟩).2.sleeps.length = MAX_RETRIES - 1
    rw [h]
    simp [hlenr]
  · intro d hd
    have hd2 : d ∈ (fetchLinkLoop url (generate_chapter_url url mt).1 lo rl
        (List.range MAX_RETRIES) ⟨[], [], (generate_chapter_url url mt).2⟩).2.sleeps := hd
    rcases fetchLinkLoop_sleeps_mem url (generate_chapter_url url mt).1 lo rl
      (List.range MAX_RETRIES) ⟨[], [], (generate_chapter_url url mt).2⟩ d hd2
      with hm | ⟨a, ha⟩
    · simp at hm
    · have hr := hrl a
      rw [ha]
      unfold uniform
      norm_num [WAIT_TIME_RETRIES]
      constructor <;> nlinarith [hr.1, hr.2]
  · have h := (fetchLinkLoop_allfail url (generate_chapter_url url mt).1 lo rl hlo
      (List.range MAX_RETRIES) ⟨[], [], (generate_chapter_url url mt).2⟩).2.2
    show (fetchLinkLoop url (generate_chapter_url url mt).1 lo rl (List.range MAX_RETRIES)
      ⟨[], [], (generate_chapter_url url mt).2⟩).2.logs
      = (generate_chapter_url url mt).2
        ++ [str "Failed to fetch download link for " ++ url ++ str "."]
    rw [h]
  · intro co2 rc2
    constructor
    · have h := fetchChapterLoop_gets_le url co2 rc2 (List.range MAX_RETRIES) ⟨[], [], []⟩
      rw [fetch_chapter_data]
      simpa [hlenr] using h
    · have h := fetchChapterLoop_gets_sleeps url co2 rc2 (List.range MAX_RETRIES)
        ⟨[], [], []⟩ hner rfl
      rw [fetch_chapter_data]
      exact h
  · intro lo2 rl2
    constructor
    · have h := fetchLinkLoop_gets_le url (generate_chapter_url url mt).1 lo2 rl2
        (List.range MAX_RETRIES) ⟨[], [], (generate_chapter_url url mt).2⟩
      show (fetchLinkLoop url (generate_chapter_url url mt).1 lo2 rl2 (List.range MAX_RETRIES)
        ⟨[], [], (generate_chapter_url url mt).2⟩).2.gets.length ≤ MAX_RETRIES
      simpa [hlenr] using h
    · have h := fetchLinkLoop_gets_sleeps url (generate_chapter_url url mt).1 lo2 rl2
        (List.range MAX_RETRIES) ⟨[], [], (generate_chapter_url url mt).2⟩ hner rfl
      exact h

/-- C7, witness: with every attempt failing on a caught network error, both
loops return null after exactly `MAX_RETRIES` attempts with `MAX_RETRIES - 1`
sleeps. -/
theorem C7_witness :
    (fetch_chapter_data (str "https://site/read/c1") C7co C7rand).1 = (none, none)
    ∧ (fetch_chapter_data (str "https://site/read/c1") C7co C7rand).2.gets.length
        = MAX_RETRIES
    ∧ (fetch_chapter_data (str "https://site/read/c1") C7co C7rand).2.sleeps.length
        = MAX_RETRIES - 1
    ∧ (fetch_download_link (str "https://site/read/c1") (some (str "Manga"))
        C7lo C7rand).1 = Except.ok none
    ∧ (fetch_download_link (str "https://site/read/c1") (some (str "Manga"))
        C7lo C7rand).2.gets.length = MAX_RETRIES := by
  have h := C7_retry_loops_bounded (str "https://site/read/c1") (str "Manga") C7co C7lo
    C7rand C7rand (fun _ => ⟨le_refl 0, zero_le_one⟩) (fun _ => ⟨le_refl 0, zero_le_one⟩)
    (fun _ => Or.inr rfl) (fun _ => Or.inr rfl)
  exact ⟨h.1.1, h.1.2.1, h.1.2.2.1, h.2.1.1, h.2.1.2.1⟩

/-- C2: for an unsupported non-null publication type, `generate_chapter_url`
does return null with the logged warning; but `fetch_download_link` has no
early return on that branch — it enters the retry loop and invokes
`session.get` with a null URL (once, propagating the uncaught `TypeError`,
under the actual library behaviour; `MAX_RETRIES` times with `MAX_RETRIES - 1`
backoff sleeps if the failure were a caught error), so the resolver neither
returns null immediately nor performs zero `session.get` calls, contrary to
the claim.  Only the undetermined type (`manga_type=None`) returns null
immediately with zero calls. -/
theorem C2_unsupported_type_not_immediate :
    (generate_chapter_url C2url C2type
      = (none, [str "Manga type '" ++ C2type ++ str "' is not supported."]))
    ∧ (fetch_download_link C2url (some C2type) C2uncaught C2rand).2.gets = [none]
    ∧ (fetch_download_link C2url (some C2type) C2uncaught C2rand).1
        = Except.error PyError.typeError
    ∧ (fetch_download_link C2url (some C2type) C2caught C2rand).2.gets.length
        = MAX_RETRIES
    ∧ (fetch_download_link C2url (some C2type) C2caught C2rand).2.sleeps.length
        = MAX_RETRIES - 1
    ∧ (∀ g ∈ (fetch_download_link C2url (some C2type) C2caught C2rand).2.gets, g = none)
    ∧ (fetch_download_link C2url (some C2type) C2caught C2rand).2.logs
        = [str "Manga type '" ++ C2type ++ str "' is not supported.",
           str "Failed to fetch download link for " ++ C2url ++ str "."]
    ∧ (fetch_download_link C2url none C2uncaught C2rand).1 = Except.ok none
    ∧ (fetch_download_link C2url none C2uncaught C2rand).2.gets = [] := by
  have hgen : generate_chapter_url C2url C2type
      = (none, [str "Manga type '" ++ C2type ++ str "' is not supported."]) := by decide
  have hfail : ∀ a, C2caught a = LinkFetchOutcome.noImgItems
      ∨ C2caught a = LinkFetchOutcome.netError := fun _ => Or.inr rfl
  have hlenr : (List.range MAX_RETRIES).length = MAX_RETRIES := List.length_range _
  have hner : List.range MAX_RETRIES ≠ [] := by
    simp [List.range_eq_nil, MAX_RETRIES]
  refine ⟨hgen, by decide, rfl, ?_, ?_, ?_, ?_, rfl, rfl⟩
  · have h := (fetchLinkLoop_allfail C2url (generate_chapter_url C2url C2type).1 C2caught
      C2rand hfail (List.range MAX_RETRIES)
      ⟨[], [], (generate_chapter_url C2url C2type).2⟩).2.1
    show (fetchLinkLoop C2url (generate_chapter_url C2url C2type).1 C2caught C2rand
      (List.range MAX_RETRIES) ⟨[], [], (generate_chapter_url C2url C2type).2⟩).2.gets.length
      = MAX_RETRIES
    rw [h]
    simp [hlenr]
  · have h := fetchLinkLoop_sleeps_allfail C2url (generate_chapter_url C2url C2type).1
      C2caught C2rand hfail (List.range MAX_RETRIES)
      ⟨[], [], (generate_chapter_url C2url C2type).2⟩ hner
    show (fetchLinkLoop C2url (generate_chapter_url C2url C2type).1 C2caught C2rand
      (List.range MAX_RETRIES)
      ⟨[], [], (generate_chapter_url C2url C2type).2⟩).2.sleeps.length = MAX_RETRIES - 1
    rw [h]
    simp [hlenr]
  · intro g hg
    have hg2 : g ∈ (fetchLinkLoop C2url (generate_chapter_url C2url C2type).1 C2caught
        C2rand (List.range MAX_RETRIES)
        ⟨[], [], (generate_chapter_url C2url C2type).2⟩).2.gets := hg
    rcases fetchLinkLoop_gets_mem C2url (generate_chapter_url C2url C2type).1 C2caught
      C2rand (List.range MAX_RETRIES) ⟨[], [], (generate_chapter_url C2url C2type).2⟩ g hg2
      with hm | hm
    · simp at hm
    · rw [hm, hgen]
  · have h := (fetchLinkLoop_allfail C2url (generate_chapter_url C2url C2type).1 C2caught
      C2rand hfail (List.range MAX_RETRIES)
      ⟨[], [], (generate_chapter_url C2url C2type).2⟩).2.2
    show (fetchLinkLoop C2url (generate_chapter_url C2url C2type).1 C2caught C2rand
      (List.range MAX_RETRIES) ⟨[], [], (generate_chapter_url C2url C2type).2⟩).2.logs
      = [str "Manga type '" ++ C2type ++ str "' is not supported.",
         str "Failed to fetch download link for " ++ C2url ++ str "."]
    rw [h, hgen]
    rfl

lemma attemptLoop_fs_independent (page : Nat) (base path : PyStr) (net : PyStr → GetOutcome) :
    ∀ (exts : List PyStr) (fs fs2 : List (PyStr × List Nat)) (rq lg lg2 : List PyStr),
      ((attemptLoop page base path net exts ⟨fs, rq, lg⟩).1
        = (attemptLoop page base path net exts ⟨fs2, rq, lg2⟩).1)
      ∧ ((attemptLoop page base path net exts ⟨fs, rq, lg⟩).2.requests
        = (attemptLoop page base path net exts ⟨fs2, rq, lg2⟩).2.requests) := by
  intro exts
  induction exts with
  | nil => intro fs fs2 rq lg lg2; exact ⟨rfl, rfl⟩
  | cons e rest ih =>
    intro fs fs2 rq lg lg2
    rw [attemptLoop, attemptLoop]
    cases hnet : net (pageLink base page e) with
    | reqError => exact ih fs fs2 _ _ _
    | resp status chunks =>
      by_cases h : status = HTTP_STATUS_OK
      · simp [h, download_page]
      · simp only [h, if_false, if_neg h]
        exact ih fs fs2 _ _ _

lemma attemptLoop_requests_ge (page : Nat) (base path : PyStr) (net : PyStr → GetOutcome) :
    ∀ (exts : List PyStr) (st : DlState),
      st.requests.length + (if exts = [] then 0 else 1)
        ≤ (attemptLoop page base path net exts st).2.requests.length := by
  intro exts
  induction exts with
  | nil => intro st; simp [attemptLoop]
  | cons e rest ih =>
    intro st
    rw [attemptLoop]
    cases hnet : net (pageLink base page e) with
    | reqError =>
      refine le_trans ?_ (ih _)
      simp
    | resp status chunks =>
      by_cases h : status = HTTP_STATUS_OK
      · simp [h, download_page]
      · simp only [h, if_neg h]
        refine le_trans ?_ (ih _)
        simp

lemma chapterLoop_requests_ge (base path : PyStr) (net : PyStr → GetOutcome) :
    ∀ (ps : List Nat) (st : DlState),
      st.requests.length + ps.length ≤ (chapterLoop base path net ps st).requests.length := by
  intro ps
  induction ps with
  | nil => intro st; simp [chapterLoop]
  | cons p rest ih =>
    intro st
    rw [chapterLoop]
    have h1 : st.requests.length + 1
        ≤ (attempt_download_page p base path net st).2.requests.length := by
      have h := attemptLoop_requests_ge p base path net PAGE_EXTENSIONS st
      simpa [attempt_download_page,
        show (PAGE_EXTENSIONS = []) = False from by simp [PAGE_EXTENSIONS]] using h
    split
    · refine le_trans ?_ (ih _)
      simp
      omega
    · refine le_trans ?_ (ih _)
      simp
      omega

/-- C1, counterexample: the chapter's single page already exists on disk
(`Downloads/m/Chapter 1/1.jpg` holding bytes `[1, 2, 3]`), yet the second run
of `download_chapter` still issues one `SESSION.get` for that page (the claim
asserts zero network requests) and rewrites the file with the newly fetched
bytes `[9, 9]` (the claim asserts the files stay byte-identical):
`attempt_download_page` contains no existence check. -/
theorem C1_counterexample :
    fsRead [(str "Downloads/m/Chapter 1/1.jpg", [1, 2, 3])]
      (str "Downloads/m/Chapter 1/1.jpg") = some [1, 2, 3]
    ∧ (download_chapter (0, str "http://cdn/ch/") [str "1"] (str "m")
        (fun _ => GetOutcome.resp 200 [some [9, 9]])
        ⟨[(str "Downloads/m/Chapter 1/1.jpg", [1, 2, 3])], [], []⟩).requests
      = [str "http://cdn/ch/1.jpg"]
    ∧ fsRead (download_chapter (0, str "http://cdn/ch/") [str "1"] (str "m")
        (fun _ => GetOutcome.resp 200 [some [9, 9]])
        ⟨[(str "Downloads/m/Chapter 1/1.jpg", [1, 2, 3])], [], []⟩).fs
        (str "Downloads/m/Chapter 1/1.jpg") = some [9, 9] := by decide

/-- C1, amended: `attempt_download_page` performs no on-disk existence check —
its success flag and request trace are entirely independent of the filesystem
state, every invocation issues at least one network request, and a re-run of
`download_chapter` over a chapter with `n` pages issues at least `n` requests
no matter what is already on disk; files are rewritten from the fetched
responses, so a second run is byte-identical only if the upstream bytes are. -/
theorem C1_no_existence_check (page : Nat) (base path : PyStr) (net : PyStr → GetOutcome)
    (fs fs2 : List (PyStr × List Nat)) (rq lg lg2 : List PyStr) :
    ((attempt_download_page page base path net ⟨fs, rq, lg⟩).1
        = (attempt_download_page page base path net ⟨fs2, rq, lg2⟩).1)
    ∧ ((attempt_download_page page base path net ⟨fs, rq, lg⟩).2.requests
        = (attempt_download_page page base path net ⟨fs2, rq, lg2⟩).2.requests)
    ∧ (rq.length + 1
        ≤ (attempt_download_page page base path net ⟨fs, rq, lg⟩).2.requests.length)
    ∧ (∀ (ii : Nat × PyStr) (pages : List PyStr) (m : PyStr) (st : DlState),
        st.requests.length + pyInt (pages.getD ii.1 (str "0"))
          ≤ (download_chapter ii pages m net st).requests.length) := by
  refine ⟨(attemptLoop_fs_independent page base path net PAGE_EXTENSIONS fs fs2 rq lg lg2).1,
    (attemptLoop_fs_independent page base path net PAGE_EXTENSIONS fs fs2 rq lg lg2).2, ?_, ?_⟩
  · have h := attemptLoop_requests_ge page base path net PAGE_EXTENSIONS ⟨fs, rq, lg⟩
    simpa [show (PAGE_EXTENSIONS = []) = False from by simp [PAGE_EXTENSIONS]] using h
  · intro ii pages m st
    have h := chapterLoop_requests_ge ii.2 (create_download_directory m ii.1) net
      (List.range' 1 (pyInt (pages.getD ii.1 (str "0")))) st
    simpa [download_chapter] using h

/-- C6: `attempt_download_page` tries the extensions in the fixed priority
order `.jpg`, `.png`, `.gif`, `.webp` against `base_url + page + extension`,
accepts the first response with status `HTTP_STATUS_OK` and streams that
response's body to `destination/page.extension`, requesting nothing after the
accepted extension; in particular the first conjunct holds whatever the
`.webp` outcome is, so `.jpg` is chosen over `.webp` whenever both would
succeed; when every extension fails, it returns `False` with all four URLs
requested and the filesystem untouched. -/
theorem C6_extension_priority (page : Nat) (base path : PyStr)
    (net : PyStr → GetOutcome) (st : DlState) :
    (
       ∀ chunks, net (pageLink base page (str ".jpg")) = GetOutcome.resp HTTP_STATUS_OK chunks →
      (attempt_download_page page base path net st).1 = true
      ∧ (attempt_download_page page base path net st).2.requests
          = st.requests ++ [pageLink base page (str ".jpg")]
      ∧ fsRead (attempt_download_page page base path net st).2.fs
          (pagePath path page (str ".jpg")) = some (joinChunks chunks)
      ∧ (∀ q, q ≠ pagePath path page (str ".jpg") →
          fsRead (attempt_download_page page base path net st).2.fs q = fsRead st.fs q))
    ∧ (getFailed (net (pageLink base page (str ".jpg"))) = true →
       ∀ chunks, net (pageLink base page (str ".png")) = GetOutcome.resp HTTP_STATUS_OK chunks →
      (attempt_download_page page base path net st).1 = true
      ∧ (attempt_download_page page base path net st).2.requests
          = st.requests ++ [pageLink base page (str ".jpg"), pageLink base page (str ".png")]
      ∧ fsRead (attempt_download_page page base path net st).2.fs
          (pagePath path page (str ".png")) = some (joinChunks chunks)
      ∧ (∀ q, q ≠ pagePath path page (str ".png") →
          fsRead (attempt_download_page page base path net st).2.fs q = fsRead st.fs q))
    ∧ (getFailed (net (pageLink base page (str ".jpg"))) = true → getFailed (net (pageLink base page (str ".png"))) = true →
       ∀ chunks, net (pageLink base page (str ".gif")) = GetOutcome.resp HTTP_STATUS_OK chunks →
      (attempt_download_page page base path net st).1 = true
      ∧ (attempt_download_page page base path net st).2.requests
          = st.requests ++ [pageLink base page (str ".jpg"), pageLink base page (str ".png"), pageLink base page (str ".gif")]
      ∧ fsRead (attempt_download_page page base path net st).2.fs
          (pagePath path page (str ".gif")) = some (joinChunks chunks)
      ∧ (∀ q, q ≠ pagePath path page (str ".gif") →
          fsRead (attempt_download_page page base path net st).2.fs q = fsRead st.fs q))
    ∧ (getFailed (net (pageLink base page (str ".jpg"))) = true → getFailed (net (pageLink base page (str ".png"))) = true → getFailed (net (pageLink base page (str ".gif"))) = true →
       ∀ chunks, net (pageLink base page (str ".webp")) = GetOutcome.resp HTTP_STATUS_OK chunks →
      (attempt_download_page page base path net st).1 = true
      ∧ (attempt_download_page page base path net st).2.requests
          = st.requests ++ [pageLink base page (str ".jpg"), pageLink base page (str ".png"), pageLink base page (str ".gif"), pageLink base page (str ".webp")]
      ∧ fsRead (attempt_download_page page base path net st).2.fs
          (pagePath path page (str ".webp")) = some (joinChunks chunks)
      ∧ (∀ q, q ≠ pagePath path page (str ".webp") →
          fsRead (attempt_download_page page base path net st).2.fs q = fsRead st.fs q))
    ∧ (getFailed (net (pageLink base page (str ".jpg"))) = true →
       getFailed (net (pageLink base page (str ".png"))) = true →
       getFailed (net (pageLink base page (str ".gif"))) = true →
       getFailed (net (pageLink base page (str ".webp"))) = true →
      (attempt_download_page page base path net st).1 = false
      ∧ (attempt_download_page page base path net st).2.requests
          = st.requests ++ [pageLink base page (str ".jpg"), pageLink base page (str ".png"), pageLink base page (str ".gif"), pageLink base page (str ".webp")]
      ∧ (∀ q, fsRead (attempt_download_page page base path net st).2.fs q = fsRead st.fs q)) := by
  refine ⟨?_, ?_, ?_, ?_, ?_⟩
  · intro chunks hs
    have hsucc := attemptLoop_cons_success page base path net (str ".jpg")
      [str ".png", str ".gif", str ".webp"] st chunks hs
    have key : attempt_download_page page base path net st
        = (true, download_page chunks page (str ".jpg") path
            ⟨st.fs, st.requests ++ [pageLink base page (str ".jpg")], st.logs⟩) := by
      show attemptLoop page base path net
        (str ".jpg" :: str ".png" :: str ".gif" :: str ".webp" :: []) st = _
      rw [hsucc]
    refine ⟨by rw [key], ?_, ?_, ?_⟩
    · rw [key]
      simp [download_page]
    · rw [key]
      exact (download_page_spec chunks page (str ".jpg") path _).2.1
    · intro q hq
      rw [key]
      exact (download_page_spec chunks page (str ".jpg") path _).2.2 q hq
  · intro h0 chunks hs
    obtain ⟨lg0, heq0⟩ := attemptLoop_cons_failed page base path net (str ".jpg")
      [str ".png", str ".gif", str ".webp"] st h0
    have hsucc := attemptLoop_cons_success page base path net (str ".png")
      [str ".gif", str ".webp"] (⟨st.fs, st.requests ++ [pageLink base page (str ".jpg")], lg0⟩ : DlState) chunks hs
    have key : attempt_download_page page base path net st
        = (true, download_page chunks page (str ".png") path
            ⟨st.fs, st.requests ++ [pageLink base page (str ".jpg")] ++ [pageLink base page (str ".png")], lg0⟩) := by
      show attemptLoop page base path net
        (str ".jpg" :: str ".png" :: str ".gif" :: str ".webp" :: []) st = _
      rw [heq0, hsucc]
    refine ⟨by rw [key], ?_, ?_, ?_⟩
    · rw [key]
      simp [download_page]
    · rw [key]
      exact (download_page_spec chunks page (str ".png") path _).2.1
    · intro q hq
      rw [key]
      exact (download_page_spec chunks page (str ".png") path _).2.2 q hq
  · intro h0 h1 chunks hs
    obtain ⟨lg0, heq0⟩ := attemptLoop_cons_failed page base path net (str ".jpg")
      [str ".png", str ".gif", str ".webp"] st h0
    obtain ⟨lg1, heq1⟩ := attemptLoop_cons_failed page base path net (str ".png")
      [str ".gif", str ".webp"] (⟨st.fs, st.requests ++ [pageLink base page (str ".jpg")], lg0⟩ : DlState) h1
    have hsucc := attemptLoop_cons_success page base path net (str ".gif")
      [str ".webp"] (⟨st.fs, st.requests ++ [pageLink base page (str ".jpg")] ++ [pageLink base page (str ".png")], lg1⟩ : DlState) chunks hs
    have key : attempt_download_page page base path net st
        = (true, download_page chunks page (str ".gif") path
            ⟨st.fs, st.requests ++ [pageLink base page (str ".jpg")] ++ [pageLink base page (str ".png")] ++ [pageLink base page (str ".gif")], lg1⟩) := by
      show attemptLoop page base path net
        (str ".jpg" :: str ".png" :: str ".gif" :: str ".webp" :: []) st = _
      rw [heq0, heq1, hsucc]
    refine ⟨by rw [key], ?_, ?_, ?_⟩
    · rw [key]
      simp [download_page]
    · rw [key]
      exact (download_page_spec chunks page (str ".gif") path _).2.1
    · intro q hq
      rw [key]
      exact (download_page_spec chunks page (str ".gif") path _).2.2 q hq
  · intro h0 h1 h2 chunks hs
    obtain ⟨lg0, heq0⟩ := attemptLoop_cons_failed page base path net (str ".jpg")
      [str ".png", str ".gif", str ".webp"] st h0
    obtain ⟨lg1, heq1⟩ := attemptLoop_cons_failed page base path net (str ".png")
      [str ".gif", str ".webp"] (⟨st.fs, st.requests ++ [pageLink base page (str ".jpg")], lg0⟩ : DlState) h1
    obtain ⟨lg2, heq2⟩ := attemptLoop_cons_failed page base path net (str ".gif")
      [str ".webp"] (⟨st.fs, st.requests ++ [pageLink base page (str ".jpg")] ++ [pageLink base page (str ".png")], lg1⟩ : DlState) h2
    have hsucc := attemptLoop_cons_success page base path net (str ".webp")
      [] (⟨st.fs, st.requests ++ [pageLink base page (str ".jpg")] ++ [pageLink base page (str ".png")] ++ [pageLink base page (str ".gif")], lg2⟩ : DlState) chunks hs
    have key : attempt_download_page page base path net st
        = (true, download_page chunks page (str ".webp") path
            ⟨st.fs, st.requests ++ [pageLink base page (str ".jpg")] ++ [pageLink base page (str ".png")] ++ [pageLink base page (str ".gif")] ++ [pageLink base page (str ".webp")], lg2⟩) := by
      show attemptLoop page base path net
        (str ".jpg" :: str ".png" :: str ".gif" :: str ".webp" :: []) st = _
      rw [heq0, heq1, heq2, hsucc]
    refine ⟨by rw [key], ?_, ?_, ?_⟩
    · rw [key]
      simp [download_page]
    · rw [key]
      exact (download_page_spec chunks page (str ".webp") path _).2.1
    · intro q hq
      rw [key]
      exact (download_page_spec chunks page (str ".webp") path _).2.2 q hq
  · intro h0 h1 h2 h3
    obtain ⟨lg0, heq0⟩ := attemptLoop_cons_failed page base path net (str ".jpg")
      [str ".png", str ".gif", str ".webp"] st h0
    obtain ⟨lg1, heq1⟩ := attemptLoop_cons_failed page base path net (str ".png")
      [str ".gif", str ".webp"] (⟨st.fs, st.requests ++ [pageLink base page (str ".jpg")], lg0⟩ : DlState) h1
    obtain ⟨lg2, heq2⟩ := attemptLoop_cons_failed page base path net (str ".gif")
      [str ".webp"] (⟨st.fs, st.requests ++ [pageLink base page (str ".jpg")] ++ [pageLink base page (str ".png")], lg1⟩ : DlState) h2
    obtain ⟨lg3, heq3⟩ := attemptLoop_cons_failed page base path net (str ".webp")
      [] (⟨st.fs, st.requests ++ [pageLink base page (str ".jpg")] ++ [pageLink base page (str ".png")] ++ [pageLink base page (str ".gif")], lg2⟩ : DlState) h3
    have key : attempt_download_page page base path net st
        = (false, (⟨st.fs, st.requests ++ [pageLink base page (str ".jpg")] ++ [pageLink base page (str ".png")] ++ [pageLink base page (str ".gif")] ++ [pageLink base page (str ".webp")], lg3⟩ : DlState)) := by
      show attemptLoop page base path net
        (str ".jpg" :: str ".png" :: str ".gif" :: str ".webp" :: []) st = _
      rw [heq0, heq1, heq2, heq3]
      rfl
    refine ⟨by rw [key], ?_, ?_⟩
    · rw [key]
      simp
    · intro q
      rw [key]

/-- C6, witness: with the page available only as `.png`, the downloader
requests `.jpg` first (404), accepts `.png`, and writes `dest/1.png` with the
response bytes. -/
theorem C6_witness :
    (attempt_download_page 1 (str "http://cdn/ch/") (str "dest") C6net ⟨[], [], []⟩).1 = true
    ∧ (attempt_download_page 1 (str "http://cdn/ch/") (str "dest") C6net
        ⟨[], [], []⟩).2.requests = [str "http://cdn/ch/1.jpg", str "http://cdn/ch/1.png"]
    ∧ fsRead (attempt_download_page 1 (str "http://cdn/ch/") (str "dest") C6net
        ⟨[], [], []⟩).2.fs (str "dest/1.png") = some [7] := by
  have h := (C6_extension_priority 1 (str "http://cdn/ch/") (str "dest") C6net
    ⟨[], [], []⟩).2.1 (by decide) [some [7]] rfl
  refine ⟨h.1, ?_, ?_⟩
  · rw [h.2.1]
    decide
  · exact h.2.2.1

/-- C5, counterexample: on the spec's own scenario script
`document.cookie="sess=abc123"; location.href="https://example.org/real"`,
the claim says the second GET carries cookie `sess=abc123`; but the capture
group `[^;]+` of `COOKIE_REGEX` runs through the closing double quote up to
the `;`, so the cookie actually attached is `("sess", "abc123\"")` — the
value keeps the trailing quote. -/
theorem C5_counterexample :
    (check_real_page C5doc C5get C5parse).2
      = [(str "https://example.org/real", (str "sess", str "abc123" ++ [quoteCh]))]
    ∧ str "abc123" ++ [quoteCh] ≠ str "abc123" := by decide

/-- C5, amended: when the script text contains the marker and both patterns
match — with the captured cookie group (which extends to the `;`, including
the closing quote) containing an `=`, so that `cookie[1]` exists — exactly one
further GET is issued, to the extracted URL with the extracted cookie pair
(name before the first `=`, value between the first and second `=`, quote
included), and the parse of that (non-error) second response is returned; if
the marker is absent or either pattern fails to match, the original document
is returned unchanged with no request and no error. -/
theorem C5_check_real_page (doc : Doc) (t g l c0 c1 : PyStr) (rest : List PyStr)
    (get : PyStr → PyStr × PyStr → Nat × PyStr) (parse : PyStr → Doc)
    (hdoc : doc.bodyScriptText = some t)
    (hmark : chContains t (str "document.cookie") = true)
    (hg : searchCookieGroup t = some g)
    (hl : searchLinkGroup t = some l)
    (hsplit : chSplitOnChar '=' (chStrip g) = c0 :: c1 :: rest)
    (hstatus : (get l (c0, c1)).1 < 400) :
    check_real_page doc get parse
      = (Except.ok (parse (get l (c0, c1)).2), [(l, (c0, c1))])
    ∧ (∀ d : Doc, d.bodyScriptText = none → check_real_page d get parse = (Except.ok d, []))
    ∧ (∀ (d : Doc) (t2 : PyStr), d.bodyScriptText = some t2 →
        (chContains t2 (str "document.cookie") = false ∨ searchCookieGroup t2 = none
          ∨ searchLinkGroup t2 = none) →
        check_real_page d get parse = (Except.ok d, [])) := by
  refine ⟨?_, ?_, ?_⟩
  · have hnot : ¬ (400 ≤ (get l (c0, c1)).1) := by omega
    simp [check_real_page, hdoc, hmark, hg, hl, hsplit, hnot]
  · intro d hd
    simp [check_real_page, hd]
  · intro d t2 hd hor
    rcases hor with hm | hcg | hlg
    · simp [check_real_page, hd, hm]
    · by_cases hm : chContains t2 (str "document.cookie") = true
      · simp [check_real_page, hd, hm, hcg]
      · simp [check_real_page, hd, hm]
    · by_cases hm : chContains t2 (str "document.cookie") = true
      · cases hcg : searchCookieGroup t2 with
        | none => simp [check_real_page, hd, hm, hcg]
        | some g2 => simp [check_real_page, hd, hm, hcg, hlg]
      · simp [check_real_page, hd, hm]

/-- C5, witness: on the scenario document, `check_real_page` issues the single
GET to `https://example.org/real` with cookie name `sess` and returns the
parse of the 200 response. -/
theorem C5_witness :
    check_real_page C5doc C5get C5parse
      = (Except.ok (C5parse (str "final-page")),
         [(str "https://example.org/real", (str "sess", str "abc123" ++ [quoteCh]))]) := by
  have h := (C5_check_real_page C5doc C5script (str "sess=abc123" ++ [quoteCh])
    (str "https://example.org/real") (str "sess") (str "abc123" ++ [quoteCh]) []
    C5get C5parse rfl (by decide) (by decide) (by decide) (by decide) (by decide)).1
  exact h


/-- C4: `get_chapter_urls_and_pages` returns exactly the kept chapters
(anchors whose href contains `/read/`) whose probe succeeded, in the reverse
of their DOM order, index-aligned with a page-count list of equal length; a
chapter whose probe exhausts the retry budget contributes no entry to either
list, and every output pair `(url, pages)` is precisely what that chapter's
probe returned. -/
theorem C4_chapter_order (hrefs : List PyStr)
    (outcome : PyStr → Nat → ChapterFetchOutcome) (rand : PyStr → Nat → ℚ) :
    (get_chapter_urls_and_pages hrefs outcome rand).1.length
      = (get_chapter_urls_and_pages hrefs outcome rand).2.length
    ∧ (get_chapter_urls_and_pages hrefs outcome rand).1
      = ((hrefs.filter fun h => chContains h (str "/read/")).filter
          (fun u => ((fetch_chapter_data u (outcome u) (rand u)).1.1).isSome)).reverse
    ∧ ∀ pr ∈ List.zip (get_chapter_urls_and_pages hrefs outcome rand).1
        (get_chapter_urls_and_pages hrefs outcome rand).2,
        (fetch_chapter_data pr.1 (outcome pr.1) (rand pr.1)).1
          = (some pr.1, some pr.2) := by
  have hne : ∀ u ∈ hrefs.filter (fun h => chContains h (str "/read/")), u ≠ [] := by
    intro u hu hnil
    have hc := (List.mem_filter.mp hu).2
    rw [hnil, chContains_nil_readLit] at hc
    exact Bool.false_ne_true hc
  have hF : ∀ u, (fetch_chapter_data u (outcome u) (rand u)).1 = (none, none)
      ∨ ∃ p, (fetch_chapter_data u (outcome u) (rand u)).1 = (some u, some p) :=
    fun u => fetch_chapter_data_cases u (outcome u) (rand u)
  obtain ⟨ha, hb⟩ := chapters_pairs_spec
    (fun u => (fetch_chapter_data u (outcome u) (rand u)).1) hF
    (hrefs.filter (fun h => chContains h (str "/read/"))) hne
  refine ⟨?_, ?_, ?_⟩
  · simp [get_chapter_urls_and_pages]
  · show ((((hrefs.filter (fun h => chContains h (str "/read/"))).map
        (fun u => (fetch_chapter_data u (outcome u) (rand u)).1)).filterMap
          keepProbed).map Prod.fst).reverse = _
    rw [ha]
  · intro pr hpr
    have hzip : List.zip (get_chapter_urls_and_pages hrefs outcome rand).1
        (get_chapter_urls_and_pages hrefs outcome rand).2
        = (((hrefs.filter (fun h => chContains h (str "/read/"))).map
            (fun u => (fetch_chapter_data u (outcome u) (rand u)).1)).filterMap
              keepProbed).reverse := by
      show List.zip ((List.map Prod.fst _).reverse) ((List.map Prod.snd _).reverse) = _
      rw [← List.map_reverse, ← List.map_reverse, zip_map_fst_snd]
    rw [hzip] at hpr
    exact hb pr (List.mem_reverse.mp hpr)

/-- C4, witness: with chapter `/read/a` failing its whole retry budget and
chapter `/read/b` probing `1/12` pages, the output lists are index-aligned and
the surviving output pair is exactly the successful probe's result. -/
theorem C4_witness :
    (get_chapter_urls_and_pages [str "https://x/read/b", str "https://x/read/a"]
      C4outcome C4rand).1.length
      = (get_chapter_urls_and_pages [str "https://x/read/b", str "https://x/read/a"]
          C4outcome C4rand).2.length
    ∧ (fetch_chapter_data (str "https://x/read/b") (C4outcome (str "https://x/read/b"))
        (C4rand (str "https://x/read/b"))).1
      = (some (str "https://x/read/b"), some (str "12")) := by
  have h := C4_chapter_order [str "https://x/read/b", str "https://x/read/a"]
    C4outcome C4rand
  exact ⟨h.1, h.2.2 (str "https://x/read/b", str "12") (by decide)⟩

/-- C8: when the chapter at input position `|A|` (the `u` between `A` and `B`)
fails to resolve while every other chapter resolves, `extract_download_links`
(over the full index window) omits that entry and compacts the list: the
output is the concatenation of the cleaned `A`- and `B`-links, so the chapter
at original 0-based position `|A| + 1 + m` appears at output position
`|A| + m`; `run_in_parallel` submits it paired with that shifted index, and
`download_chapter` derives both the `Chapter <index + 1>` directory name and
the `pages_per_chapter` entry from the shifted index — the slot of the
preceding original chapter, not its own. -/
theorem C8_failed_resolution_shifts_pairing (A B : List PyStr) (u : PyStr)
    (resolve : PyStr → Option PyStr) (L : PyStr → PyStr)
    (hu : resolve u = none)
    (hA : ∀ x ∈ A, resolve x = some (L x) ∧ L x ≠ [])
    (hB : ∀ x ∈ B, resolve x = some (L x) ∧ L x ≠ []) :
    (extract_download_links (A ++ u :: B) 0 ((A ++ u :: B).length : Int) resolve
      = A.map (fun x => stripFirstPageSuffix (L x))
        ++ B.map (fun x => stripFirstPageSuffix (L x)))
    ∧ (extract_download_links (A ++ u :: B) 0 ((A ++ u :: B).length : Int)
        resolve).length = A.length + B.length
    ∧ (∀ m, m < B.length →
        (extract_download_links (A ++ u :: B) 0 ((A ++ u :: B).length : Int)
            resolve)[A.length + m]?
          = (B[m]?).map (fun x => stripFirstPageSuffix (L x))
        ∧ (run_in_parallel_items (extract_download_links (A ++ u :: B) 0
            ((A ++ u :: B).length : Int) resolve))[A.length + m]?
          = (B[m]?).map (fun x => (A.length + m, stripFirstPageSuffix (L x))))
    ∧ (∀ (i : Nat) (link : PyStr) (pages : List PyStr) (mn : PyStr)
        (net : PyStr → GetOutcome) (st : DlState),
        download_chapter (i, link) pages mn net st
          = chapterLoop link
              (DOWNLOAD_FOLDER ++ str "/" ++ mn ++ str "/Chapter " ++ natToCh (i + 1))
              net (List.range' 1 (pyInt (pages.getD i (str "0")))) st) := by
  have hmain : extract_download_links (A ++ u :: B) 0 ((A ++ u :: B).length : Int) resolve
      = A.map (fun x => stripFirstPageSuffix (L x))
        ++ B.map (fun x => stripFirstPageSuffix (L x)) := by
    show (pySlice ((A ++ u :: B).map resolve) 0
      ((A ++ u :: B).length : Int)).filterMap keepLink = _
    rw [show ((A ++ u :: B).length : Int) = (((A ++ u :: B).map resolve).length : Int)
      from by rw [List.length_map]]
    rw [pySlice_full, List.map_append, List.map_cons, List.filterMap_append,
      List.filterMap_cons, hu]
    rw [filterMap_keepLink_all resolve L A hA]
    show _ ++ List.filterMap keepLink (B.map resolve) = _
    rw [filterMap_keepLink_all resolve L B hB]
  refine ⟨hmain, by rw [hmain]; simp, ?_, fun i link pages mn net st => rfl⟩
  intro m hm
  have hfst : (extract_download_links (A ++ u :: B) 0 ((A ++ u :: B).length : Int)
      resolve)[A.length + m]? = (B[m]?).map (fun x => stripFirstPageSuffix (L x)) := by
    rw [hmain, List.getElem?_append_right (by simp)]
    simp
  refine ⟨hfst, ?_⟩
  rw [run_in_parallel_items, List.getElem?_enum, hfst]
  cases B[m]? <;> rfl

/-- C8, witness: with chapters `a`, `u`, `b` where `u` fails to resolve, the
output compacts to two entries and the chapter `b` (original position 2) sits at
output position 1, carrying slot 1's pairing. -/
theorem C8_witness :
    (extract_download_links ([str "a"] ++ str "u" :: [str "b"]) 0
      (([str "a"] ++ str "u" :: [str "b"]).length : Int) C8resolve).length
      = List.length [str "a"] + List.length [str "b"]
    ∧ (extract_download_links ([str "a"] ++ str "u" :: [str "b"]) 0
        (([str "a"] ++ str "u" :: [str "b"]).length : Int)
          C8resolve)[List.length [str "a"] + 0]?
      = ([str "b"][0]?).map (fun x => stripFirstPageSuffix (C8L x)) := by
  have h := C8_failed_resolution_shifts_pairing [str "a"] [str "b"] (str "u")
    C8resolve C8L (by decide) (by decide) (by decide)
  exact ⟨h.2.1, (h.2.2.1 0 (by decide)).1⟩

end MangaWorld
